import Mathlib

/-!
Verification of the rust-ip2location BIN reader.

Shallow embedding of `src/common.rs`, `src/ip2location/db.rs`,
`src/ip2location/consts.rs`, `src/ip2proxy/db.rs` and
`src/ip2proxy/consts.rs`.

Modelling conventions:
* the memory-mapped blob is a `List Nat` of bytes; a byte is read as
  `getD i 0 % 256` (Rust's `u8` values are below 256 by construction);
* Rust `u32` arithmetic wraps; we write `u32 e` (reduction modulo `2^32`)
  exactly where the source computes in `u32`.  `u8` products wrap modulo
  `256` (`% 256`).  Release-mode semantics: `mid - 1` at `mid = 0` wraps to
  `2^32 - 1` instead of panicking;
* strings are their byte lists.  The source compares lossily-decoded
  strings against `"-"`, `"DCH"`, `"SES"`; a lossy UTF-8 decode equals one
  of these pure-ASCII strings exactly when the raw bytes are that ASCII
  sequence, so byte-list equality is a faithful translation;
* `f32` columns are kept as their raw little-endian bit patterns (no claim
  inspects float values, only presence and read bounds);
* `Error::GenericError(String)` / `Error::IoError(String)` drop their
  message payloads: no claim distinguishes messages;
* loops take a fuel parameter; `Res.diverge` means the fuel ran out and is
  never produced by the straight-line code.
-/

/-- Error kinds of `src/error.rs` (string payloads dropped). -/
inductive Error where
  | GenericError : Error
  | IoError : Error
  | RecordNotFound : Error
  | UnknownDb : Error
  | InvalidBinDatabase : Nat → Nat → Error
deriving DecidableEq, Repr

/-- Outcome of running embedded code: success, returned error, Rust panic
(out-of-bounds indexing of a constant table), or fuel exhaustion. -/
inductive Res (α : Type) where
  | ok : α → Res α
  | err : Error → Res α
  | panic : Res α
  | diverge : Res α
deriving DecidableEq, Repr

/-- Sequencing that propagates errors, panics and divergence, as Rust `?`
does for errors and a panic does by unwinding. -/
def Res.bind {α β : Type} : Res α → (α → Res β) → Res β
  | .ok a, f => f a
  | .err e, _ => .err e
  | .panic, _ => .panic
  | .diverge, _ => .diverge

/-- Mapping over a successful outcome. -/
def Res.map {α β : Type} (f : α → β) : Res α → Res β
  | .ok a => .ok (f a)
  | .err e => .err e
  | .panic => .panic
  | .diverge => .diverge

/-- Reduction modulo `2^32`, the effect of wrapping `u32` arithmetic. -/
def u32 (n : Nat) : Nat := n % 4294967296

/-- Byte `i` (0-based) of the blob; Rust bytes are below 256. -/
def byteAt (m : List Nat) (i : Nat) : Nat := m.getD i 0 % 256

/-- Little-endian value of `n` bytes starting at 0-based index `start`. -/
def leBytes (m : List Nat) (start : Nat) : Nat → Nat
  | 0 => 0
  | n + 1 => byteAt m start + 256 * leBytes m (start + 1) n

/-- Bytes of a pool string: `len` bytes from 0-based index `start`. -/
def strBytes (m : List Nat) (start len : Nat) : List Nat :=
  (List.range len).map fun i => byteAt m (start + i)

/-- `Source::read_u8` — byte at 1-based `offset`, bounds-checked. -/
def read_u8 (m : List Nat) (offset : Nat) : Res Nat :=
  if offset = 0 then .err .GenericError
  else if m.length ≤ offset - 1 then .err .GenericError
  else .ok (byteAt m (offset - 1))

/-- `Source::read_u32` — little-endian `u32` at 1-based `offset`. -/
def read_u32 (m : List Nat) (offset : Nat) : Res Nat :=
  if offset = 0 then .err .GenericError
  else if m.length < offset - 1 + 4 then .err .GenericError
  else .ok (leBytes m (offset - 1) 4)

/-- `Source::read_f32` — same bytes as `read_u32`, kept as raw bits. -/
def read_f32 (m : List Nat) (offset : Nat) : Res Nat :=
  if offset = 0 then .err .GenericError
  else if m.length < offset - 1 + 4 then .err .GenericError
  else .ok (leBytes m (offset - 1) 4)

/-- `Source::read_str` — length byte at `offset + 1` (1-based), then that
many content bytes; fails when the content would escape the blob. -/
def read_str (m : List Nat) (offset : Nat) : Res (List Nat) :=
  (read_u8 m (offset + 1)).bind fun len =>
    if m.length < offset + 1 + len then .err .GenericError
    else .ok (strBytes m (offset + 1) len)

/-- `Source::read_ipv6` — sixteen bytes at 1-based `offset`, least
significant octet first on disk, as the numeric `u128` address value. -/
def read_ipv6 (m : List Nat) (offset : Nat) : Res Nat :=
  if offset = 0 then .err .GenericError
  else if m.length < offset - 1 + 16 then .err .GenericError
  else .ok (leBytes m (offset - 1) 16)

/-! Schema position tables, `src/ip2location/consts.rs`. -/

/-- `COUNTRY_POSITION` (location family), 26 entries. -/
def COUNTRY_POSITION : List Nat :=
  [0, 2, 2, 2, 2, 2, 2, 2, 2, 2, 2, 2, 2, 2, 2, 2, 2, 2, 2, 2, 2, 2, 2, 2, 2, 2]

/-- `REGION_POSITION` (location family). -/
def REGION_POSITION : List Nat :=
  [0, 0, 0, 3, 3, 3, 3, 3, 3, 3, 3, 3, 3, 3, 3, 3, 3, 3, 3, 3, 3, 3, 3, 3, 3, 3]

/-- `CITY_POSITION` (location family). -/
def CITY_POSITION : List Nat :=
  [0, 0, 0, 4, 4, 4, 4, 4, 4, 4, 4, 4, 4, 4, 4, 4, 4, 4, 4, 4, 4, 4, 4, 4, 4, 4]

/-- `ISP_POSITION` (location family). -/
def ISP_POSITION : List Nat :=
  [0, 0, 3, 0, 5, 0, 7, 5, 7, 0, 8, 0, 9, 0, 9, 0, 9, 0, 9, 7, 9, 0, 9, 7, 9, 9]

/-- `LATITUDE_POSITION` (location family). -/
def LATITUDE_POSITION : List Nat :=
  [0, 0, 0, 0, 0, 5, 5, 0, 5, 5, 5, 5, 5, 5, 5, 5, 5, 5, 5, 5, 5, 5, 5, 5, 5, 5]

/-- `LONGITUDE_POSITION` (location family). -/
def LONGITUDE_POSITION : List Nat :=
  [0, 0, 0, 0, 0, 6, 6, 0, 6, 6, 6, 6, 6, 6, 6, 6, 6, 6, 6, 6, 6, 6, 6, 6, 6, 6]

/-- `DOMAIN_POSITION` (location family). -/
def DOMAIN_POSITION : List Nat :=
  [0, 0, 0, 0, 0, 0, 0, 6, 8, 0, 9, 0, 10, 0, 10, 0, 10, 0, 10, 8, 10, 0, 10, 8, 10, 10]

/-- `ZIPCODE_POSITION` (location family). -/
def ZIPCODE_POSITION : List Nat :=
  [0, 0, 0, 0, 0, 0, 0, 0, 0, 7, 7, 7, 7, 0, 7, 7, 7, 0, 7, 0, 7, 7, 7, 0, 7, 7]

/-- `TIMEZONE_POSITION` (location family). -/
def TIMEZONE_POSITION : List Nat :=
  [0, 0, 0, 0, 0, 0, 0, 0, 0, 0, 0, 8, 8, 7, 8, 8, 8, 7, 8, 0, 8, 8, 8, 0, 8, 8]

/-- `NETSPEED_POSITION` (location family). -/
def NETSPEED_POSITION : List Nat :=
  [0, 0, 0, 0, 0, 0, 0, 0, 0, 0, 0, 0, 0, 8, 11, 0, 11, 8, 11, 0, 11, 0, 11, 0, 11, 11]

/-- `IDDCODE_POSITION` (location family). -/
def IDDCODE_POSITION : List Nat :=
  [0, 0, 0, 0, 0, 0, 0, 0, 0, 0, 0, 0, 0, 0, 0, 9, 12, 0, 12, 0, 12, 9, 12, 0, 12, 12]

/-- `AREACODE_POSITION` (location family). -/
def AREACODE_POSITION : List Nat :=
  [0, 0, 0, 0, 0, 0, 0, 0, 0, 0, 0, 0, 0, 0, 0, 10, 13, 0, 13, 0, 13, 10, 13, 0, 13, 13]

/-- `WEATHERSTATIONCODE_POSITION` (location family). -/
def WEATHERSTATIONCODE_POSITION : List Nat :=
  [0, 0, 0, 0, 0, 0, 0, 0, 0, 0, 0, 0, 0, 0, 0, 0, 0, 9, 14, 0, 14, 0, 14, 0, 14, 14]

/-- `WEATHERSTATIONNAME_POSITION` (location family). -/
def WEATHERSTATIONNAME_POSITION : List Nat :=
  [0, 0, 0, 0, 0, 0, 0, 0, 0, 0, 0, 0, 0, 0, 0, 0, 0, 10, 15, 0, 15, 0, 15, 0, 15, 15]

/-- `MCC_POSITION` (location family). -/
def MCC_POSITION : List Nat :=
  [0, 0, 0, 0, 0, 0, 0, 0, 0, 0, 0, 0, 0, 0, 0, 0, 0, 0, 0, 9, 16, 0, 16, 9, 16, 16]

/-- `MNC_POSITION` (location family). -/
def MNC_POSITION : List Nat :=
  [0, 0, 0, 0, 0, 0, 0, 0, 0, 0, 0, 0, 0, 0, 0, 0, 0, 0, 0, 10, 17, 0, 17, 10, 17, 17]

/-- `MOBILEBRAND_POSITION` (location family). -/
def MOBILEBRAND_POSITION : List Nat :=
  [0, 0, 0, 0, 0, 0, 0, 0, 0, 0, 0, 0, 0, 0, 0, 0, 0, 0, 0, 11, 18, 0, 18, 11, 18, 18]

/-- `ELEVATION_POSITION` (location family). -/
def ELEVATION_POSITION : List Nat :=
  [0, 0, 0, 0, 0, 0, 0, 0, 0, 0, 0, 0, 0, 0, 0, 0, 0, 0, 0, 0, 0, 11, 19, 0, 19, 19]

/-- `USAGETYPE_POSITION` (location family). -/
def USAGETYPE_POSITION : List Nat :=
  [0, 0, 0, 0, 0, 0, 0, 0, 0, 0, 0, 0, 0, 0, 0, 0, 0, 0, 0, 0, 0, 0, 0, 12, 20, 20]

/-- `ADDRESSTYPE_POSITION` (location family). -/
def ADDRESSTYPE_POSITION : List Nat :=
  [0, 0, 0, 0, 0, 0, 0, 0, 0, 0, 0, 0, 0, 0, 0, 0, 0, 0, 0, 0, 0, 0, 0, 0, 0, 21]

/-- `CATEGORY_POSITION` (location family). -/
def CATEGORY_POSITION : List Nat :=
  [0, 0, 0, 0, 0, 0, 0, 0, 0, 0, 0, 0, 0, 0, 0, 0, 0, 0, 0, 0, 0, 0, 0, 0, 0, 22]

/-- Modelled from the spec: `DISTRICT_POSITION` is referenced by
`LocationDB::read_record` but absent from `src/ip2location/consts.rs` as
packaged; §3 of the specification lists `district` among the optional
fields and §4.3 says a zero entry means the field is absent in that
schema.  The concrete reference table is not packaged here, so the
26-entry table is modelled with every schema lacking the field; no claim
depends on its nonzero entries. -/
def DISTRICT_POSITION : List Nat :=
  [0, 0, 0, 0, 0, 0, 0, 0, 0, 0, 0, 0, 0, 0, 0, 0, 0, 0, 0, 0, 0, 0, 0, 0, 0, 0]

/-- Modelled from the spec: `ASN_POSITION` (location family) is absent
from `src/ip2location/consts.rs`; modelled as all-absent like
`DISTRICT_POSITION`.  No claim depends on its nonzero entries. -/
def ASN_POSITION : List Nat :=
  [0, 0, 0, 0, 0, 0, 0, 0, 0, 0, 0, 0, 0, 0, 0, 0, 0, 0, 0, 0, 0, 0, 0, 0, 0, 0]

/-- Modelled from the spec: `AS_POSITION` (location family) is absent
from `src/ip2location/consts.rs`; modelled as all-absent like
`DISTRICT_POSITION`.  No claim depends on its nonzero entries. -/
def AS_POSITION : List Nat :=
  [0, 0, 0, 0, 0, 0, 0, 0, 0, 0, 0, 0, 0, 0, 0, 0, 0, 0, 0, 0, 0, 0, 0, 0, 0, 0]

/-! Schema position tables, `src/ip2proxy/consts.rs` (12 entries each). -/

/-- `PROXY_TYPE_POSITION` (proxy family). -/
def PROXY_TYPE_POSITION : List Nat := [0, 0, 2, 2, 2, 2, 2, 2, 2, 2, 2, 2]

/-- `COUNTRY_POSITION` (proxy family). -/
def PROXY_COUNTRY_POSITION : List Nat := [0, 2, 3, 3, 3, 3, 3, 3, 3, 3, 3, 3]

/-- `REGION_POSITION` (proxy family). -/
def PROXY_REGION_POSITION : List Nat := [0, 0, 0, 4, 4, 4, 4, 4, 4, 4, 4, 4]

/-- `CITY_POSITION` (proxy family). -/
def PROXY_CITY_POSITION : List Nat := [0, 0, 0, 5, 5, 5, 5, 5, 5, 5, 5, 5]

/-- `ISP_POSITION` (proxy family). -/
def PROXY_ISP_POSITION : List Nat := [0, 0, 0, 0, 6, 6, 6, 6, 6, 6, 6, 6]

/-- `DOMAIN_POSITION` (proxy family). -/
def PROXY_DOMAIN_POSITION : List Nat := [0, 0, 0, 0, 0, 7, 7, 7, 7, 7, 7, 7]

/-- `USAGE_TYPE_POSITION` (proxy family). -/
def USAGE_TYPE_POSITION : List Nat := [0, 0, 0, 0, 0, 0, 8, 8, 8, 8, 8, 8]

/-- `ASN_POSITION` (proxy family). -/
def PROXY_ASN_POSITION : List Nat := [0, 0, 0, 0, 0, 0, 0, 9, 9, 9, 9, 9]

/-- `AS_POSITION` (proxy family). -/
def PROXY_AS_POSITION : List Nat := [0, 0, 0, 0, 0, 0, 0, 10, 10, 10, 10, 10]

/-- `LAST_SEEN_POSITION` (proxy family). -/
def LAST_SEEN_POSITION : List Nat := [0, 0, 0, 0, 0, 0, 0, 0, 11, 11, 11, 11]

/-- `THREAT_POSITION` (proxy family). -/
def THREAT_POSITION : List Nat := [0, 0, 0, 0, 0, 0, 0, 0, 0, 12, 12, 12]

/-- `PROVIDER_POSITION` (proxy family). -/
def PROVIDER_POSITION : List Nat := [0, 0, 0, 0, 0, 0, 0, 0, 0, 0, 0, 13]

/-- `MAX_IPV4_RANGE` from `src/ip2proxy/consts.rs`. -/
def MAX_IPV4_RANGE : Nat := 4294967295

/-- Rust constant-array indexing `TBL[i]`: a value when in bounds, a panic
when out of bounds. -/
def posGet (tbl : List Nat) (i : Nat) : Res Nat :=
  match tbl.get? i with
  | some v => .ok v
  | none => .panic

/-! Address model and IPv6 embedding constants from `src/common.rs`. -/

/-- An already-parsed IP address: `IpAddr::V4` carries the `u32` value,
`IpAddr::V6` the `u128` value. -/
inductive IpAddr where
  | V4 : Nat → IpAddr
  | V6 : Nat → IpAddr
deriving DecidableEq, Repr

/-- `FROM_6TO4` (`2002::`). -/
def FROM_6TO4 : Nat := 0x20020000000000000000000000000000

/-- `TO_6TO4` (`2002:ffff:...:ffff`). -/
def TO_6TO4 : Nat := 0x2002ffffffffffffffffffffffffffff

/-- `FROM_TEREDO` (`2001:0000::`). -/
def FROM_TEREDO : Nat := 0x20010000000000000000000000000000

/-- `TO_TEREDO` (`2001:0000:ffff:...:ffff`). -/
def TO_TEREDO : Nat := 0x20010000ffffffffffffffffffffffff

/-- Rust `Ipv6Addr::to_ipv4`: the trailing 32 bits when the address is
IPv4-compatible (`::a.b.c.d`, segments `[0,0,0,0,0,0,x,y]`) or
IPv4-mapped (`::ffff:a.b.c.d`, segments `[0,0,0,0,0,0xffff,x,y]`). -/
def toIpv4 (w : Nat) : Option Nat :=
  if w / 4294967296 = 0 ∨ w / 4294967296 = 65535 then some (w % 4294967296)
  else none

/-! Record shapes, `src/ip2location/record.rs` and
`src/ip2proxy/record.rs`.  Strings are byte lists. -/

/-- Country column: short name at the pointer, long name 3 bytes past. -/
structure Country where
  short_name : List Nat
  long_name : List Nat
deriving DecidableEq, Repr

/-- `LocationRecord` with every optional column.  Latitude/longitude keep
their raw 32-bit patterns. -/
structure LocationRecord where
  ip : IpAddr
  latitude : Option Nat
  longitude : Option Nat
  country : Option Country
  region : Option (List Nat)
  city : Option (List Nat)
  isp : Option (List Nat)
  domain : Option (List Nat)
  zip_code : Option (List Nat)
  time_zone : Option (List Nat)
  net_speed : Option (List Nat)
  idd_code : Option (List Nat)
  area_code : Option (List Nat)
  weather_station_code : Option (List Nat)
  weather_station_name : Option (List Nat)
  mcc : Option (List Nat)
  mnc : Option (List Nat)
  mobile_brand : Option (List Nat)
  elevation : Option (List Nat)
  usage_type : Option (List Nat)
  address_type : Option (List Nat)
  category : Option (List Nat)
  district : Option (List Nat)
  asn : Option (List Nat)
  as_name : Option (List Nat)
deriving DecidableEq, Repr

/-- `LocationRecord::default()`: unspecified IPv6 address, no columns. -/
def LocationRecord.default : LocationRecord :=
  { ip := .V6 0, latitude := none, longitude := none, country := none,
    region := none, city := none, isp := none, domain := none,
    zip_code := none, time_zone := none, net_speed := none,
    idd_code := none, area_code := none, weather_station_code := none,
    weather_station_name := none, mcc := none, mnc := none,
    mobile_brand := none, elevation := none, usage_type := none,
    address_type := none, category := none, district := none,
    asn := none, as_name := none }

/-- Proxy classification enum. -/
inductive Proxy where
  | IsAnError : Proxy
  | IsNotAProxy : Proxy
  | IsAProxy : Proxy
  | IsADataCenterIpAddress : Proxy
deriving DecidableEq, Repr

/-- Proxy record shape used by `ProxyDB::read_record`. -/
structure ProxyRecord where
  ip : IpAddr
  country : Option Country
  region : Option (List Nat)
  city : Option (List Nat)
  isp : Option (List Nat)
  domain : Option (List Nat)
  is_proxy : Option Proxy
  proxy_type : Option (List Nat)
  asn : Option (List Nat)
  as_ : Option (List Nat)
  last_seen : Option (List Nat)
  threat : Option (List Nat)
  provider : Option (List Nat)
  usage_type : Option (List Nat)
deriving DecidableEq, Repr

/-- `ProxyRecord::default()`: unspecified IPv6 address, no columns, and
`is_proxy` preset to the error classification. -/
def ProxyRecord.default : ProxyRecord :=
  { ip := .V6 0, country := none, region := none, city := none,
    isp := none, domain := none, is_proxy := some .IsAnError,
    proxy_type := none, asn := none, as_ := none, last_seen := none,
    threat := none, provider := none, usage_type := none }

/-! The IP2Location engine, `src/ip2location/db.rs`. -/

/-- `LocationDB`: parsed header fields plus the backing blob. -/
structure LocationDB where
  db_type : Nat
  db_column : Nat
  db_year : Nat
  db_month : Nat
  db_day : Nat
  ipv4_db_count : Nat
  ipv4_db_addr : Nat
  ipv6_db_count : Nat
  ipv6_db_addr : Nat
  ipv4_index_base_addr : Nat
  ipv6_index_base_addr : Nat
  product_code : Nat
  license_code : Nat
  database_size : Nat
  source : List Nat
deriving DecidableEq, Repr

/-- `LocationDB::read_header`: decode the 32-byte header from the blob,
then accept exactly when `(db_year ≤ 20 ∧ product_code = 0) ∨
product_code = 1`, else `InvalidBinDatabase(db_year, product_code)`. -/
def LocationDB.read_header (m : List Nat) : Res LocationDB :=
  (read_u8 m 1).bind fun dbType =>
  (read_u8 m 2).bind fun dbColumn =>
  (read_u8 m 3).bind fun dbYear =>
  (read_u8 m 4).bind fun dbMonth =>
  (read_u8 m 5).bind fun dbDay =>
  (read_u32 m 6).bind fun v4count =>
  (read_u32 m 10).bind fun v4addr =>
  (read_u32 m 14).bind fun v6count =>
  (read_u32 m 18).bind fun v6addr =>
  (read_u32 m 22).bind fun v4idx =>
  (read_u32 m 26).bind fun v6idx =>
  (read_u8 m 30).bind fun productCode =>
  (read_u8 m 31).bind fun licenseCode =>
  (read_u32 m 32).bind fun databaseSize =>
  if (dbYear ≤ 20 ∧ productCode = 0) ∨ productCode = 1 then
    .ok { db_type := dbType, db_column := dbColumn, db_year := dbYear,
          db_month := dbMonth, db_day := dbDay, ipv4_db_count := v4count,
          ipv4_db_addr := v4addr, ipv6_db_count := v6count,
          ipv6_db_addr := v6addr, ipv4_index_base_addr := v4idx,
          ipv6_index_base_addr := v6idx, product_code := productCode,
          license_code := licenseCode, database_size := databaseSize,
          source := m }
  else .err (.InvalidBinDatabase dbYear productCode)

/-- One string column of `LocationDB::read_record`: look up the 1-based
column position for the current `db_type` (panics when `db_type` escapes
the 26-entry table), skip when zero, else read the `u32` pointer at
`row_addr + 4 * (pos - 1)` (wrapping `u32` arithmetic) and chase it into
the string pool. -/
def LocationDB.posStr (db : LocationDB) (tbl : List Nat) (row_addr : Nat) :
    Res (Option (List Nat)) :=
  (posGet tbl db.db_type).bind fun p =>
    if 0 < p then
      (read_u32 db.source (u32 (row_addr + 4 * (p - 1)))).bind fun index =>
      (read_str db.source index).map some
    else .ok none

/-- One float column of `LocationDB::read_record` (raw bits kept). -/
def LocationDB.posF32 (db : LocationDB) (tbl : List Nat) (row_addr : Nat) :
    Res (Option Nat) :=
  (posGet tbl db.db_type).bind fun p =>
    if 0 < p then
      (read_f32 db.source (u32 (row_addr + 4 * (p - 1)))).map some
    else .ok none

/-- The country column of `LocationDB::read_record`: short name at the
pointer, long name at `pointer + 3` (wrapping `u32` addition). -/
def LocationDB.posCountry (db : LocationDB) (row_addr : Nat) :
    Res (Option Country) :=
  (posGet COUNTRY_POSITION db.db_type).bind fun p =>
    if 0 < p then
      (read_u32 db.source (u32 (row_addr + 4 * (p - 1)))).bind fun index =>
      (read_str db.source index).bind fun short =>
      (read_str db.source (u32 (index + 3))).map fun long =>
        some { short_name := short, long_name := long }
    else .ok none

/-- `LocationDB::read_record`: materialise the row at `row_addr`, column
blocks in source order. -/
def LocationDB.read_record (db : LocationDB) (row_addr : Nat) :
    Res LocationRecord :=
  (db.posCountry row_addr).bind fun country =>
  (db.posStr REGION_POSITION row_addr).bind fun region =>
  (db.posF32 LATITUDE_POSITION row_addr).bind fun latitude =>
  (db.posF32 LONGITUDE_POSITION row_addr).bind fun longitude =>
  (db.posStr CITY_POSITION row_addr).bind fun city =>
  (db.posStr ISP_POSITION row_addr).bind fun isp =>
  (db.posStr DOMAIN_POSITION row_addr).bind fun domain =>
  (db.posStr ZIPCODE_POSITION row_addr).bind fun zipCode =>
  (db.posStr TIMEZONE_POSITION row_addr).bind fun timeZone =>
  (db.posStr NETSPEED_POSITION row_addr).bind fun netSpeed =>
  (db.posStr IDDCODE_POSITION row_addr).bind fun iddCode =>
  (db.posStr AREACODE_POSITION row_addr).bind fun areaCode =>
  (db.posStr WEATHERSTATIONCODE_POSITION row_addr).bind fun wsCode =>
  (db.posStr WEATHERSTATIONNAME_POSITION row_addr).bind fun wsName =>
  (db.posStr MCC_POSITION row_addr).bind fun mcc =>
  (db.posStr MNC_POSITION row_addr).bind fun mnc =>
  (db.posStr MOBILEBRAND_POSITION row_addr).bind fun mobileBrand =>
  (db.posStr ELEVATION_POSITION row_addr).bind fun elevation =>
  (db.posStr USAGETYPE_POSITION row_addr).bind fun usageType =>
  (db.posStr ADDRESSTYPE_POSITION row_addr).bind fun addressType =>
  (db.posStr CATEGORY_POSITION row_addr).bind fun category =>
  (db.posStr DISTRICT_POSITION row_addr).bind fun district =>
  (db.posStr ASN_POSITION row_addr).bind fun asn =>
  (db.posStr AS_POSITION row_addr).bind fun asName =>
  .ok { LocationRecord.default with
        country := country, region := region, latitude := latitude,
        longitude := longitude, city := city, isp := isp,
        domain := domain, zip_code := zipCode, time_zone := timeZone,
        net_speed := netSpeed, idd_code := iddCode,
        area_code := areaCode, weather_station_code := wsCode,
        weather_station_name := wsName, mcc := mcc, mnc := mnc,
        mobile_brand := mobileBrand, elevation := elevation,
        usage_type := usageType, address_type := addressType,
        category := category, district := district, asn := asn,
        as_name := asName }

/-- Offset of IPv4 row `mid`: `ipv4_db_addr + mid * db_column * 4`,
wrapping `u32` arithmetic. -/
def LocationDB.v4off (db : LocationDB) (mid : Nat) : Nat :=
  u32 (db.ipv4_db_addr + mid * db.db_column * 4)

/-- The `while low <= high` loop of `LocationDB::ipv4_lookup`, returning
the row offset of the hit.  `high = mid - 1` wraps to `2^32 - 1` when
`mid = 0` (release-mode `u32` underflow). -/
def LocationDB.v4loop (db : LocationDB) (ip : Nat) :
    Nat → Nat → Nat → Res Nat
  | 0, _, _ => .diverge
  | fuel + 1, low, high =>
    if low ≤ high then
      let mid := u32 (low + high) / 2
      (read_u32 db.source (db.v4off mid)).bind fun ipFrom =>
      (read_u32 db.source (db.v4off (mid + 1))).bind fun ipTo =>
      if ipFrom ≤ ip ∧ ip < ipTo then .ok (db.v4off mid)
      else if ip < ipFrom then
        db.v4loop ip fuel low (if mid = 0 then 4294967295 else mid - 1)
      else db.v4loop ip fuel (mid + 1) high
    else .err .RecordNotFound

/-- `LocationDB::ipv4_lookup`: decrement `0xFFFFFFFF`, take the window
from the IPv4 index when `ipv4_index_base_addr > 0`, binary-search, then
materialise the hit row. -/
def LocationDB.ipv4_lookup (db : LocationDB) (fuel ip0 : Nat) :
    Res LocationRecord :=
  let ip := if ip0 = 4294967295 then 4294967294 else ip0
  (if 0 < db.ipv4_index_base_addr then
     let index := u32 (ip / 65536 * 8 + db.ipv4_index_base_addr)
     (read_u32 db.source index).bind fun low =>
     (read_u32 db.source (u32 (index + 4))).map fun high => (low, high)
   else .ok (0, db.ipv4_db_count)).bind fun lh =>
  (db.v4loop ip fuel lh.1 lh.2).bind fun row => db.read_record row

/-- Offset of IPv6 row `mid`: `ipv6_db_addr + mid * (db_column * 4 + 12)`,
wrapping `u32` arithmetic. -/
def LocationDB.v6off (db : LocationDB) (mid : Nat) : Nat :=
  u32 (db.ipv6_db_addr + mid * (db.db_column * 4 + 12))

/-- The `while low <= high` loop of `LocationDB::ipv6_lookup`; a hit
materialises 12 bytes past the row offset.  Non-strict lower bound. -/
def LocationDB.v6loop (db : LocationDB) (w : Nat) :
    Nat → Nat → Nat → Res Nat
  | 0, _, _ => .diverge
  | fuel + 1, low, high =>
    if low ≤ high then
      let mid := u32 (low + high) / 2
      (read_ipv6 db.source (db.v6off mid)).bind fun ipFrom =>
      (read_ipv6 db.source (db.v6off (mid + 1))).bind fun ipTo =>
      if ipFrom ≤ w ∧ w < ipTo then .ok (u32 (db.v6off mid + 12))
      else if w < ipFrom then
        db.v6loop w fuel low (if mid = 0 then 4294967295 else mid - 1)
      else db.v6loop w fuel (mid + 1) high
    else .err .RecordNotFound

/-- `LocationDB::ipv6_lookup`: window from the IPv6 index (key
`octet0 * 256 + octet1`) when `ipv6_index_base_addr > 0`, binary-search
with 128-bit comparisons, materialise past the 16-byte address field. -/
def LocationDB.ipv6_lookup (db : LocationDB) (fuel w : Nat) :
    Res LocationRecord :=
  (if 0 < db.ipv6_index_base_addr then
     let num := w / 2 ^ 120 % 256 * 256 + w / 2 ^ 112 % 256
     let index := u32 (num * 8 + db.ipv6_index_base_addr)
     (read_u32 db.source index).bind fun low =>
     (read_u32 db.source (u32 (index + 4))).map fun high => (low, high)
   else .ok (0, db.ipv6_db_count)).bind fun lh =>
  (db.v6loop w fuel lh.1 lh.2).bind fun row => db.read_record row

/-- `LocationDB::ip_lookup`: canonicalise the address (Rust `to_ipv4`,
then the 6to4 and Teredo ranges), run the right search, and overwrite the
returned record's `ip` with the caller's address. -/
def LocationDB.ip_lookup (db : LocationDB) (fuel : Nat) (a : IpAddr) :
    Res LocationRecord :=
  match a with
  | .V4 v => (db.ipv4_lookup fuel v).map fun r => { r with ip := a }
  | .V6 w =>
    match toIpv4 w with
    | some v => (db.ipv4_lookup fuel v).map fun r => { r with ip := a }
    | none =>
      if FROM_6TO4 ≤ w ∧ w ≤ TO_6TO4 then
        (db.ipv4_lookup fuel (w / 2 ^ 80 % 4294967296)).map fun r =>
          { r with ip := a }
      else if FROM_TEREDO ≤ w ∧ w ≤ TO_TEREDO then
        (db.ipv4_lookup fuel ((2 ^ 128 - 1 - w) % 4294967296)).map fun r =>
          { r with ip := a }
      else (db.ipv6_lookup fuel w).map fun r => { r with ip := a }

/-! The IP2Proxy engine, `src/ip2proxy/db.rs`. -/

/-- `ProxyDB`: parsed header fields plus the backing blob. -/
structure ProxyDB where
  db_type : Nat
  db_column : Nat
  db_year : Nat
  db_month : Nat
  db_day : Nat
  ipv4_db_count : Nat
  ipv4_db_addr : Nat
  ipv6_db_count : Nat
  ipv6_db_addr : Nat
  ipv4_index_base_addr : Nat
  ipv6_index_base_addr : Nat
  licence_code : Nat
  product_code : Nat
  database_size : Nat
  source : List Nat
deriving DecidableEq, Repr

/-- `ProxyDB::read_header`: accept when `product_code = 2`, or when
`db_year ≤ 20 ∧ product_code = 0`; reject with
`InvalidBinDatabase(db_year, product_code)` otherwise. -/
def ProxyDB.read_header (m : List Nat) : Res ProxyDB :=
  (read_u8 m 1).bind fun dbType =>
  (read_u8 m 2).bind fun dbColumn =>
  (read_u8 m 3).bind fun dbYear =>
  (read_u8 m 4).bind fun dbMonth =>
  (read_u8 m 5).bind fun dbDay =>
  (read_u32 m 6).bind fun v4count =>
  (read_u32 m 10).bind fun v4addr =>
  (read_u32 m 14).bind fun v6count =>
  (read_u32 m 18).bind fun v6addr =>
  (read_u32 m 22).bind fun v4idx =>
  (read_u32 m 26).bind fun v6idx =>
  (read_u8 m 30).bind fun productCode =>
  (read_u8 m 31).bind fun licenceCode =>
  (read_u32 m 32).bind fun databaseSize =>
  if productCode = 2 ∨ (dbYear ≤ 20 ∧ productCode = 0) then
    .ok { db_type := dbType, db_column := dbColumn, db_year := dbYear,
          db_month := dbMonth, db_day := dbDay, ipv4_db_count := v4count,
          ipv4_db_addr := v4addr, ipv6_db_count := v6count,
          ipv6_db_addr := v6addr, ipv4_index_base_addr := v4idx,
          ipv6_index_base_addr := v6idx, licence_code := licenceCode,
          product_code := productCode, database_size := databaseSize,
          source := m }
  else .err (.InvalidBinDatabase dbYear productCode)

/-- One uniform column block of `ProxyDB::read_record`: when the position
for the current `db_type` is nonzero (the 12-entry table indexing panics
for `db_type ≥ 12`) and the field is still unset, read the pointer at
`offset + 4 * (pos - 2)` and chase it into the string pool. -/
def ProxyDB.fldStep (db : ProxyDB) (tbl : List Nat) (offset : Nat)
    (cur : Option (List Nat)) : Res (Option (List Nat)) :=
  (posGet tbl db.db_type).bind fun p =>
    if p ≠ 0 then
      if cur = none then
        (read_u32 db.source (4 * (p - 2) + offset)).bind fun index =>
        (read_str db.source index).map some
      else .ok cur
    else .ok cur

/-- `ProxyDB::read_record`.  The record starts as the default with
`is_proxy = IsAnError`.  The country block also derives the `is_proxy`
classification; note that its proxy-type read chases the pointer at the
COUNTRY position (`4 * (COUNTRY_POSITION[t] - 2) + offset`), exactly as
the source does.  `"-"`, `"DCH"`, `"SES"` are the byte lists `[45]`,
`[68,67,72]`, `[83,69,83]`. -/
def ProxyDB.read_record (db : ProxyDB) (offset : Nat) : Res ProxyRecord :=
  let r0 : ProxyRecord := { ProxyRecord.default with is_proxy := some .IsAnError }
  (posGet PROXY_COUNTRY_POSITION db.db_type).bind fun cpos =>
  (if cpos ≠ 0 then
     (read_u32 db.source (offset + 4 * (cpos - 2))).bind fun index =>
     (read_str db.source index).bind fun countryShort =>
     (read_str db.source (index + 3)).bind fun countryLong =>
     (if countryShort = [45] then
        .ok { r0 with
              is_proxy := some .IsNotAProxy,
              country := some { short_name := countryShort,
                                long_name := countryLong } }
      else
        (if r0.proxy_type = none then
           (read_u32 db.source (4 * (cpos - 2) + offset)).bind fun index2 =>
           (read_str db.source index2).map fun pt =>
             { r0 with proxy_type := some pt }
         else .ok r0).bind fun r1 =>
        let r2 :=
          if r1.proxy_type = some [68, 67, 72] ∨
             r1.proxy_type = some [83, 69, 83] then
            { r1 with is_proxy := some .IsADataCenterIpAddress }
          else { r1 with is_proxy := some .IsAProxy }
        .ok { r2 with
              country := some { short_name := countryShort,
                                long_name := countryLong } })
   else .ok r0).bind fun rA =>
  (db.fldStep PROXY_REGION_POSITION offset rA.region).bind fun region =>
  (db.fldStep PROXY_CITY_POSITION offset rA.city).bind fun city =>
  (db.fldStep PROXY_ISP_POSITION offset rA.isp).bind fun isp =>
  (db.fldStep PROXY_TYPE_POSITION offset rA.proxy_type).bind fun proxyType =>
  (db.fldStep PROXY_DOMAIN_POSITION offset rA.domain).bind fun domain =>
  (db.fldStep USAGE_TYPE_POSITION offset rA.usage_type).bind fun usageType =>
  (db.fldStep PROXY_ASN_POSITION offset rA.asn).bind fun asn =>
  (db.fldStep PROXY_AS_POSITION offset rA.as_).bind fun asField =>
  (db.fldStep LAST_SEEN_POSITION offset rA.last_seen).bind fun lastSeen =>
  (db.fldStep THREAT_POSITION offset rA.threat).bind fun threat =>
  (db.fldStep PROVIDER_POSITION offset rA.provider).bind fun provider =>
  .ok { rA with
        region := region, city := city, isp := isp,
        proxy_type := proxyType, domain := domain,
        usage_type := usageType, asn := asn, as_ := asField,
        last_seen := lastSeen, threat := threat, provider := provider }

/-- `column_offset` of `ProxyDB::get_ipv4_record`: the product
`db_column * 4` is computed in `u8` and wraps modulo 256. -/
def ProxyDB.colOff4 (db : ProxyDB) : Nat := db.db_column * 4 % 256

/-- Offset of proxy IPv4 row `mid`: `ipv4_db_addr + mid * column_offset`,
wrapping `u32` arithmetic. -/
def ProxyDB.pv4off (db : ProxyDB) (mid : Nat) : Nat :=
  u32 (db.ipv4_db_addr + mid * db.colOff4)

/-- The `while low <= high` loop of `ProxyDB::get_ipv4_record`; the next
row's begin is read at `row_offset + column_offset` (widened to `u64`, no
wrap); a hit materialises at `row_offset + 4` (wrapping `u32`). -/
def ProxyDB.pv4loop (db : ProxyDB) (ip : Nat) :
    Nat → Nat → Nat → Res Nat
  | 0, _, _ => .diverge
  | fuel + 1, low, high =>
    if low ≤ high then
      let mid := u32 (low + high) / 2
      (read_u32 db.source (db.pv4off mid)).bind fun ipFrom =>
      (read_u32 db.source (db.pv4off mid + db.colOff4)).bind fun ipTo =>
      if ipFrom ≤ ip ∧ ip < ipTo then .ok (u32 (db.pv4off mid + 4))
      else if ip < ipFrom then
        db.pv4loop ip fuel low (if mid = 0 then 4294967295 else mid - 1)
      else db.pv4loop ip fuel (mid + 1) high
    else .err .RecordNotFound

/-- `ProxyDB::get_ipv4_record`. -/
def ProxyDB.get_ipv4_record (db : ProxyDB) (fuel ip0 : Nat) :
    Res ProxyRecord :=
  let ip := if ip0 = MAX_IPV4_RANGE then ip0 - 1 else ip0
  (if 0 < db.ipv4_index_base_addr then
     let indexPos := u32 (db.ipv4_index_base_addr + ip / 65536 * 8)
     (read_u32 db.source indexPos).bind fun low =>
     (read_u32 db.source (u32 (indexPos + 4))).map fun high => (low, high)
   else .ok (0, db.ipv4_db_count)).bind fun lh =>
  (db.pv4loop ip fuel lh.1 lh.2).bind fun row => db.read_record row

/-- `column_offset` of `ProxyDB::get_ipv6_record`: `db_column * 4 + 12`
computed in `u8`, wrapping modulo 256. -/
def ProxyDB.colOff16 (db : ProxyDB) : Nat := (db.db_column * 4 + 12) % 256

/-- Offset of proxy IPv6 row `mid` as the source computes it:
`ipv6_db_addr + (mid + column_offset)` — additive, not multiplicative. -/
def ProxyDB.pv6off (db : ProxyDB) (mid : Nat) : Nat :=
  u32 (db.ipv6_db_addr + (mid + db.colOff16))

/-- The `while low <= high` loop of `ProxyDB::get_ipv6_record`: probes at
the additive row offset, next begin at `row_offset + column_offset`
(wrapping `u32`), and a hit — with a strict lower bound
`ip_address > ip_from` — materialises at `row_offset + 16`. -/
def ProxyDB.pv6loop (db : ProxyDB) (w : Nat) :
    Nat → Nat → Nat → Res Nat
  | 0, _, _ => .diverge
  | fuel + 1, low, high =>
    if low ≤ high then
      let mid := u32 (low + high) / 2
      (read_ipv6 db.source (db.pv6off mid)).bind fun ipFrom =>
      (read_ipv6 db.source (u32 (db.pv6off mid + db.colOff16))).bind fun ipTo =>
      if ipFrom < w ∧ w < ipTo then .ok (u32 (db.pv6off mid + 16))
      else if w < ipFrom then
        db.pv6loop w fuel low (if mid = 0 then 4294967295 else mid - 1)
      else db.pv6loop w fuel (mid + 1) high
    else .err .RecordNotFound

/-- `ProxyDB::get_ipv6_record`: returns the default record when
`ipv6_db_count = 0`; the index window — when taken — is keyed from
`ipv4_index_base_addr`, exactly as the source reads it. -/
def ProxyDB.get_ipv6_record (db : ProxyDB) (fuel w : Nat) :
    Res ProxyRecord :=
  if db.ipv6_db_count = 0 then .ok ProxyRecord.default
  else
    (if 0 < db.ipv4_index_base_addr then
       let num := w / 2 ^ 120 % 256 * 256 + w / 2 ^ 112 % 256
       let indexPos := u32 (db.ipv4_index_base_addr + num * 8)
       (read_u32 db.source indexPos).bind fun low =>
       (read_u32 db.source (u32 (indexPos + 4))).map fun high => (low, high)
     else .ok (0, db.ipv6_db_count)).bind fun lh =>
    (db.pv6loop w fuel lh.1 lh.2).bind fun row => db.read_record row

/-- `ProxyDB::ip_lookup`: same canonicalisation as the location engine,
then overwrite the returned record's `ip` with the caller's address. -/
def ProxyDB.ip_lookup (db : ProxyDB) (fuel : Nat) (a : IpAddr) :
    Res ProxyRecord :=
  match a with
  | .V4 v => (db.get_ipv4_record fuel v).map fun r => { r with ip := a }
  | .V6 w =>
    match toIpv4 w with
    | some v => (db.get_ipv4_record fuel v).map fun r => { r with ip := a }
    | none =>
      if FROM_6TO4 ≤ w ∧ w ≤ TO_6TO4 then
        (db.get_ipv4_record fuel (w / 2 ^ 80 % 4294967296)).map fun r =>
          { r with ip := a }
      else if FROM_TEREDO ≤ w ∧ w ≤ TO_TEREDO then
        (db.get_ipv4_record fuel ((2 ^ 128 - 1 - w) % 4294967296)).map fun r =>
          { r with ip := a }
      else (db.get_ipv6_record fuel w).map fun r => { r with ip := a }

/-! The facade, `src/common.rs`. -/

/-- A loaded database of either family (`DB` in `src/common.rs`). -/
inductive DB where
  | LocationDb : LocationDB → DB
  | ProxyDb : ProxyDB → DB
deriving DecidableEq, Repr

/-- `DB::from_file` after the file is mapped: reject blobs shorter than 32
bytes, classify by the raw `product_code` byte (0-based index 29), and
dispatch to the family validators; `product_code = 0` tries location
first and falls back to proxy; other codes give `UnknownDb`. -/
def DB_from_blob (m : List Nat) : Res DB :=
  if m.length < 32 then .err .GenericError
  else
    let productCode := byteAt m 29
    if productCode = 1 then (LocationDB.read_header m).map .LocationDb
    else if productCode = 2 then (ProxyDB.read_header m).map .ProxyDb
    else if productCode = 0 then
      match LocationDB.read_header m with
      | .ok ldb => .ok (.LocationDb ldb)
      | _ => (ProxyDB.read_header m).map .ProxyDb
    else .err .UnknownDb

/-! Concrete database fixtures used to exercise the engines. -/

/-- The location header a blob parses to when every read succeeds. -/
def locHeaderOf (m : List Nat) : LocationDB :=
  { db_type := byteAt m 0, db_column := byteAt m 1, db_year := byteAt m 2,
    db_month := byteAt m 3, db_day := byteAt m 4,
    ipv4_db_count := leBytes m 5 4, ipv4_db_addr := leBytes m 9 4,
    ipv6_db_count := leBytes m 13 4, ipv6_db_addr := leBytes m 17 4,
    ipv4_index_base_addr := leBytes m 21 4,
    ipv6_index_base_addr := leBytes m 25 4, product_code := byteAt m 29,
    license_code := byteAt m 30, database_size := leBytes m 31 4,
    source := m }

/-- The proxy header a blob parses to when every read succeeds. -/
def proxHeaderOf (m : List Nat) : ProxyDB :=
  { db_type := byteAt m 0, db_column := byteAt m 1, db_year := byteAt m 2,
    db_month := byteAt m 3, db_day := byteAt m 4,
    ipv4_db_count := leBytes m 5 4, ipv4_db_addr := leBytes m 9 4,
    ipv6_db_count := leBytes m 13 4, ipv6_db_addr := leBytes m 17 4,
    ipv4_index_base_addr := leBytes m 21 4,
    ipv6_index_base_addr := leBytes m 25 4, licence_code := byteAt m 30,
    product_code := byteAt m 29, database_size := leBytes m 31 4,
    source := m }

/-- A well-formed DB1-shaped location blob: one IPv4 row `[0, 2^32-1)`
at offset 49 pointing at the country strings `"US"` / `"USA"`. -/
def locBinA : List Nat :=
  [1, 2, 21, 1, 1,  1, 0, 0, 0,  49, 0, 0, 0,  0, 0, 0, 0,  0, 0, 0, 0,
   0, 0, 0, 0,  0, 0, 0, 0,  1, 0,  0, 0, 0, 0,  0,
   0, 0, 0, 0, 0, 0, 0, 0, 0, 0, 0, 0,
   0, 0, 0, 0,  64, 0, 0, 0,  255, 255, 255, 255,  0, 0, 0, 0,
   2, 85, 83,  3, 85, 83, 65]

/-- The handle `locBinA` opens to. -/
def locDbA : LocationDB :=
  { db_type := 1, db_column := 2, db_year := 21, db_month := 1, db_day := 1,
    ipv4_db_count := 1, ipv4_db_addr := 49, ipv6_db_count := 0,
    ipv6_db_addr := 0, ipv4_index_base_addr := 0, ipv6_index_base_addr := 0,
    product_code := 1, license_code := 0, database_size := 0,
    source := locBinA }

/-- The record `locBinA`'s single row materialises to (`ip` still the
default, as `read_record` never touches it). -/
def locRecA : LocationRecord :=
  { LocationRecord.default with
    country := some { short_name := [85, 83], long_name := [85, 83, 65] } }

/-- A location blob holding both tables: the IPv6 region at offset 37 is
all-zero (so every IPv6 probe reads begin 0 and end 0), and the IPv4
table has one row `[0, 10)` with country `"US"` / `"USA"`. -/
def locBinB : List Nat :=
  [1, 2, 21, 1, 1,  1, 0, 0, 0,  77, 0, 0, 0,  0, 0, 0, 0,  37, 0, 0, 0,
   0, 0, 0, 0,  0, 0, 0, 0,  1, 0,  0, 0, 0, 0,  0] ++
  List.replicate 40 0 ++
  [0, 0, 0, 0,  92, 0, 0, 0,  10, 0, 0, 0,  0, 0, 0, 0,
   2, 85, 83,  3, 85, 83, 65]

/-- The handle `locBinB` opens to. -/
def locDbB : LocationDB :=
  { db_type := 1, db_column := 2, db_year := 21, db_month := 1, db_day := 1,
    ipv4_db_count := 1, ipv4_db_addr := 77, ipv6_db_count := 0,
    ipv6_db_addr := 37, ipv4_index_base_addr := 0, ipv6_index_base_addr := 0,
    product_code := 1, license_code := 0, database_size := 0,
    source := locBinB }

/-- A location blob whose single IPv4 row begins at 5, so a lookup of 0
drives `high = mid - 1` through the `u32` wrap at `mid = 0`. -/
def locBinC : List Nat :=
  [1, 2, 21, 1, 1,  1, 0, 0, 0,  44, 0, 0, 0,  0, 0, 0, 0,  0, 0, 0, 0,
   0, 0, 0, 0,  0, 0, 0, 0,  1, 0,  0, 0, 0, 0,
   7, 0, 0, 0,  0, 0, 0, 0,  5, 0, 0, 0,  0, 0, 0, 0,
   10, 0, 0, 0,  0, 0, 0, 0]

/-- The handle `locBinC` opens to. -/
def locDbC : LocationDB :=
  { db_type := 1, db_column := 2, db_year := 21, db_month := 1, db_day := 1,
    ipv4_db_count := 1, ipv4_db_addr := 44, ipv6_db_count := 0,
    ipv6_db_addr := 0, ipv4_index_base_addr := 0, ipv6_index_base_addr := 0,
    product_code := 1, license_code := 0, database_size := 0,
    source := locBinC }

/-- A proxy blob with one IPv6 row: at the offsets the proxy engine
actually probes, the stored range is `[5, 100)`. -/
def proxBinD : List Nat :=
  [1, 1, 21, 1, 1,  1, 0, 0, 0,  1, 0, 0, 0,  1, 0, 0, 0,  100, 0, 0, 0,
   0, 0, 0, 0,  0, 0, 0, 0,  2, 0,  0, 0, 0, 0,  0] ++
  List.replicate 79 0 ++
  [5] ++ List.replicate 15 0 ++
  [100] ++ List.replicate 16 0

/-- The handle `proxBinD` opens to. -/
def proxDbD : ProxyDB :=
  { db_type := 1, db_column := 1, db_year := 21, db_month := 1, db_day := 1,
    ipv4_db_count := 1, ipv4_db_addr := 1, ipv6_db_count := 1,
    ipv6_db_addr := 100, ipv4_index_base_addr := 0,
    ipv6_index_base_addr := 0, licence_code := 0, product_code := 2,
    database_size := 0, source := proxBinD }

/-- A proxy row fixture (schema PX2): the country column points at
`"US"` / `"USA"` and the proxy-type column points at `"DCH"`. -/
def proxBinE : List Nat :=
  [30, 0, 0, 0,  20, 0, 0, 0,  0, 0, 0, 0, 0, 0, 0, 0, 0, 0, 0, 0,
   2, 85, 83,  3, 85, 83, 65,  0, 0, 0,  3, 68, 67, 72]

/-- A PX2 proxy handle over `proxBinE`. -/
def proxDbE : ProxyDB :=
  { db_type := 2, db_column := 4, db_year := 21, db_month := 1, db_day := 1,
    ipv4_db_count := 0, ipv4_db_addr := 0, ipv6_db_count := 0,
    ipv6_db_addr := 0, ipv4_index_base_addr := 0, ipv6_index_base_addr := 0,
    licence_code := 0, product_code := 2, database_size := 0,
    source := proxBinE }

/-- What `proxDbE.read_record 1` produces: the classification compares
the country short name (re-read through the COUNTRY position) against
`"DCH"`/`"SES"`, so the row is classified `IsAProxy`. -/
def proxRecE : ProxyRecord :=
  { ProxyRecord.default with
    country := some { short_name := [85, 83], long_name := [85, 83, 65] },
    is_proxy := some .IsAProxy, proxy_type := some [85, 83] }

/-- A validated proxy blob whose header is all zero except
`product_code = 2`; in particular `ipv6_count = 0`. -/
def proxBinF : List Nat :=
  [0, 0, 0, 0, 0, 0, 0, 0, 0, 0, 0, 0, 0, 0, 0, 0, 0, 0, 0, 0,
   0, 0, 0, 0, 0, 0, 0, 0, 0, 2, 0, 0, 0, 0, 0, 0]

/-- The handle `proxBinF` opens to. -/
def proxDbF : ProxyDB :=
  { db_type := 0, db_column := 0, db_year := 0, db_month := 0, db_day := 0,
    ipv4_db_count := 0, ipv4_db_addr := 0, ipv6_db_count := 0,
    ipv6_db_addr := 0, ipv4_index_base_addr := 0, ipv6_index_base_addr := 0,
    licence_code := 0, product_code := 2, database_size := 0,
    source := proxBinF }

/-- A location blob that validates fine but carries `db_type = 26`, one
row past the end of every 26-entry position table. -/
def locBin26 : List Nat :=
  [26, 1, 0, 0, 0,  1, 0, 0, 0,  40, 0, 0, 0,  0, 0, 0, 0,  0, 0, 0, 0,
   0, 0, 0, 0,  0, 0, 0, 0,  1, 0,  0, 0, 0, 0,  0, 0, 0, 0,
   0, 0, 0, 0,  100, 0, 0, 0]

/-- The handle `locBin26` opens to. -/
def locDb26 : LocationDB :=
  { db_type := 26, db_column := 1, db_year := 0, db_month := 0, db_day := 0,
    ipv4_db_count := 1, ipv4_db_addr := 40, ipv6_db_count := 0,
    ipv6_db_addr := 0, ipv4_index_base_addr := 0, ipv6_index_base_addr := 0,
    product_code := 1, license_code := 0, database_size := 0,
    source := locBin26 }

/-- A proxy handle carrying `db_type = 12`, one past the 12-entry proxy
position tables. -/
def proxDb12 : ProxyDB :=
  { proxDbE with db_type := 12 }

/-- An all-zero header except `product_code = 1`: accepted by `open`
although `db_type = 0` and `db_column = 0`. -/
def locBinZ : List Nat :=
  [0, 0, 0, 0, 0, 0, 0, 0, 0, 0, 0, 0, 0, 0, 0, 0, 0, 0, 0, 0,
   0, 0, 0, 0, 0, 0, 0, 0, 0, 1, 0, 0, 0, 0, 0, 0]

/-- The handle `locBinZ` opens to. -/
def locDbZ : LocationDB :=
  { db_type := 0, db_column := 0, db_year := 0, db_month := 0, db_day := 0,
    ipv4_db_count := 0, ipv4_db_addr := 0, ipv6_db_count := 0,
    ipv6_db_addr := 0, ipv4_index_base_addr := 0, ipv6_index_base_addr := 0,
    product_code := 1, license_code := 0, database_size := 0,
    source := locBinZ }

/-- The record `locBinB`'s IPv4 row materialises to, with the caller's
address `::1` written back. -/
def locRecB : LocationRecord :=
  { LocationRecord.default with
    ip := .V6 1,
    country := some { short_name := [85, 83], long_name := [85, 83, 65] } }

/-- Outcomes a bounds-checked read can produce: a value or the generic
out-of-range error. -/
abbrev Res.Tame {α : Type} (x : Res α) : Prop :=
  (∃ a, x = .ok a) ∨ x = .err .GenericError

/-- Outcomes a lookup can produce: a record, `RecordNotFound`, the
generic out-of-range error, or fuel exhaustion — in particular no panic
and no other error kind. -/
abbrev Res.Benign {α : Type} (x : Res α) : Prop :=
  (∃ a, x = .ok a) ∨ x = .err .RecordNotFound ∨ x = .err .GenericError ∨
    x = .diverge

/-! Basic lemmas about the embedding. -/

set_option maxRecDepth 100000

/-- Bind on a success applies the continuation. -/
@[simp]
theorem Res.ok_bind {α β : Type} (a : α) (f : α → Res β) :
    (Res.ok a).bind f = f a := rfl

/-- Bind propagates an error. -/
@[simp]
theorem Res.err_bind {α β : Type} (e : Error) (f : α → Res β) :
    (Res.err e).bind f = .err e := rfl

/-- Bind propagates a panic. -/
@[simp]
theorem Res.panic_bind {α β : Type} (f : α → Res β) :
    (Res.panic : Res α).bind f = .panic := rfl

/-- Bind propagates fuel exhaustion. -/
@[simp]
theorem Res.diverge_bind {α β : Type} (f : α → Res β) :
    (Res.diverge : Res α).bind f = .diverge := rfl

/-- Map on a success. -/
@[simp]
theorem Res.map_ok {α β : Type} (f : α → β) (a : α) :
    (Res.ok a).map f = .ok (f a) := rfl

/-- Map on an error. -/
@[simp]
theorem Res.map_err {α β : Type} (f : α → β) (e : Error) :
    (Res.err e : Res α).map f = .err e := rfl

/-- Map on a panic. -/
@[simp]
theorem Res.map_panic {α β : Type} (f : α → β) :
    (Res.panic : Res α).map f = .panic := rfl

/-- Map on fuel exhaustion. -/
@[simp]
theorem Res.map_diverge {α β : Type} (f : α → β) :
    (Res.diverge : Res α).map f = .diverge := rfl

/-- C1: the proxy IPv6 range search diverges from the specified one.  On
the opened handle `proxDbD` the engine probes row 0 at the additive
offset `ipv6_db_addr + (0 + column_offset) = 116` (the specified
multiplicative stride would probe `ipv6_db_addr + 0 * column_offset =
100`), finds the stored range `[5, 100)` there, and still reports
`RecordNotFound` for the address `5` because its lower bound is strict —
the specified non-strict bound `ip_from ≤ w < ip_to` demands a hit.  (The
window, when an index is present, is read from `ipv4_index_base_addr`,
see `ProxyDB.get_ipv6_record`.) -/
theorem c1_proxy_ipv6_search_diverges :
    DB_from_blob proxBinD = .ok (.ProxyDb proxDbD) ∧
    proxDbD.ipv6_index_base_addr = 0 ∧
    proxDbD.pv6off 0 = 116 ∧
    u32 (proxDbD.ipv6_db_addr + 0 * (proxDbD.db_column * 4 + 12)) = 100 ∧
    read_ipv6 proxDbD.source (proxDbD.pv6off 0) = .ok 5 ∧
    read_ipv6 proxDbD.source (u32 (proxDbD.pv6off 0 + proxDbD.colOff16)) =
      .ok 100 ∧
    proxDbD.get_ipv6_record 10 5 = .err .RecordNotFound := by
  refine ⟨by decide, rfl, by decide, by decide, by decide, by decide, by decide⟩

/-- C3 (amended): a blob shorter than 32 bytes is rejected by `open`, but
with the generic error, not `UnknownDb`. -/
theorem c3_short_file_generic_error (m : List Nat) (h : m.length < 32) :
    DB_from_blob m = .err .GenericError := by
  unfold DB_from_blob
  rw [if_pos h]

/-- C3 counterexample: a 10-byte file is rejected with `GenericError`
(the claim says `UnknownDb`), and `open` accepts `locBinZ`, whose header
has `db_type = 0` and `db_column = 0` — there is no `db_type ∈ [1, 25]`
or `db_column ≥ 1` validation. -/
theorem c3_counterexample :
    DB_from_blob (List.replicate 10 0) = .err .GenericError ∧
    Error.GenericError ≠ Error.UnknownDb ∧
    DB_from_blob locBinZ = .ok (.LocationDb locDbZ) ∧
    locDbZ.db_type = 0 ∧
    locDbZ.db_column = 0 :=
  ⟨by decide, by decide, by decide, rfl, rfl⟩

/-- C3 witness: the amended rejection applied to a concrete 31-byte blob. -/
theorem c3_witness :
    (List.replicate 31 (0 : Nat)).length < 32 ∧
    DB_from_blob (List.replicate 31 0) = .err .GenericError :=
  ⟨by decide, c3_short_file_generic_error _ (by decide)⟩

/-- C5: on the PX2 fixture the proxy-type column (position 2 for this
schema) decodes to `"DCH"`, yet the materialised row is classified
`IsAProxy`, because the classifier re-reads the pointer at the COUNTRY
position and compares the country short name `"US"` against
`"DCH"`/`"SES"`; the claimed classification would be
`IsADataCenterIpAddress`. -/
theorem c5_classification_ignores_proxy_type_column :
    posGet PROXY_TYPE_POSITION proxDbE.db_type = .ok 2 ∧
    read_u32 proxDbE.source (4 * (2 - 2) + 1) = .ok 30 ∧
    read_str proxDbE.source 30 = .ok [68, 67, 72] ∧
    proxDbE.read_record 1 = .ok proxRecE ∧
    proxRecE.is_proxy = some .IsAProxy ∧
    proxRecE.proxy_type = some [85, 83] :=
  ⟨by decide, by decide, by decide, by decide, rfl, rfl⟩

/-- C7 (amended): a range search whose window is exhausted returns
`RecordNotFound` in all four loops, but the proxy IPv6 path with
`ipv6_count = 0` short-circuits to a successful default record instead. -/
theorem c7_miss_semantics :
    (∀ (db : ProxyDB) (fuel w : Nat), db.ipv6_db_count = 0 →
       db.get_ipv6_record fuel w = .ok ProxyRecord.default) ∧
    (∀ (db : LocationDB) (ip fuel low high : Nat), high < low →
       db.v4loop ip (fuel + 1) low high = .err .RecordNotFound) ∧
    (∀ (db : LocationDB) (w fuel low high : Nat), high < low →
       db.v6loop w (fuel + 1) low high = .err .RecordNotFound) ∧
    (∀ (db : ProxyDB) (ip fuel low high : Nat), high < low →
       db.pv4loop ip (fuel + 1) low high = .err .RecordNotFound) ∧
    (∀ (db : ProxyDB) (w fuel low high : Nat), high < low →
       db.pv6loop w (fuel + 1) low high = .err .RecordNotFound) := by
  refine ⟨?_, ?_, ?_, ?_, ?_⟩
  · intro db fuel w h
    unfold ProxyDB.get_ipv6_record
    rw [if_pos h]
  · intro db ip fuel low high h
    simp only [LocationDB.v4loop]
    rw [if_neg (by omega)]
  · intro db w fuel low high h
    simp only [LocationDB.v6loop]
    rw [if_neg (by omega)]
  · intro db ip fuel low high h
    simp only [ProxyDB.pv4loop]
    rw [if_neg (by omega)]
  · intro db w fuel low high h
    simp only [ProxyDB.pv6loop]
    rw [if_neg (by omega)]

/-- C7 counterexample: the opened handle `proxDbF` has `ipv6_count = 0`,
and its IPv6 lookup path succeeds with the default record instead of
returning `RecordNotFound`. -/
theorem c7_counterexample :
    DB_from_blob proxBinF = .ok (.ProxyDb proxDbF) ∧
    proxDbF.ipv6_db_count = 0 ∧
    proxDbF.get_ipv6_record 5 123 = .ok ProxyRecord.default ∧
    (Res.ok ProxyRecord.default : Res ProxyRecord) ≠ .err .RecordNotFound :=
  ⟨by decide, rfl, by decide, by decide⟩

/-- C7 witness: the amended miss semantics at concrete inputs. -/
theorem c7_witness :
    proxDbF.ipv6_db_count = 0 ∧
    proxDbF.get_ipv6_record 7 9 = .ok ProxyRecord.default ∧
    (0 : Nat) < 1 ∧
    locDbA.v4loop 5 (3 + 1) 1 0 = .err .RecordNotFound :=
  ⟨rfl, c7_miss_semantics.1 proxDbF 7 9 rfl, by decide,
   c7_miss_semantics.2.1 locDbA 5 3 1 0 (by decide)⟩

/-- C10: the location position tables have 26 entries and the proxy ones
12; any row materialisation with `db_type` past the table length panics
on the very first table access; and `open` accepts `locBin26`, whose
`db_type` is 26, so a lookup that hits a row panics instead of returning
an error. -/
theorem c10_schema_table_overflow_panics :
    COUNTRY_POSITION.length = 26 ∧
    PROXY_COUNTRY_POSITION.length = 12 ∧
    (∀ (db : LocationDB) (off : Nat), 26 ≤ db.db_type →
       db.read_record off = .panic) ∧
    (∀ (db : ProxyDB) (off : Nat), 12 ≤ db.db_type →
       db.read_record off = .panic) ∧
    DB_from_blob locBin26 = .ok (.LocationDb locDb26) ∧
    locDb26.db_type = 26 ∧
    locDb26.ipv4_lookup 10 5 = .panic := by
  refine ⟨by decide, by decide, ?_, ?_, by decide, rfl, by decide⟩
  · intro db off h
    unfold LocationDB.read_record LocationDB.posCountry posGet
    rw [List.get?_eq_none.mpr (by simpa [COUNTRY_POSITION] using h)]
    simp
  · intro db off h
    unfold ProxyDB.read_record posGet
    rw [List.get?_eq_none.mpr (by simpa [PROXY_COUNTRY_POSITION] using h)]
    simp

/-- C10 witness: the panic theorems applied at `db_type = 26` and
`db_type = 12`. -/
theorem c10_witness :
    locDb26.read_record 40 = .panic ∧ proxDb12.read_record 1 = .panic :=
  ⟨c10_schema_table_overflow_panics.2.2.1 locDb26 40 (by decide),
   c10_schema_table_overflow_panics.2.2.2.1 proxDb12 1 (by decide)⟩

/-- A tame outcome is benign. -/
theorem Res.Tame.benign {α : Type} {x : Res α} (h : x.Tame) : x.Benign := by
  rcases h with ⟨a, rfl⟩ | rfl
  · exact Or.inl ⟨a, rfl⟩
  · exact Or.inr (Or.inr (Or.inl rfl))

/-- A success is tame. -/
theorem tame_ok {α : Type} (a : α) : (Res.ok a).Tame := Or.inl ⟨a, rfl⟩

/-- Binding tame outcomes is tame. -/
theorem tame_bind {α β : Type} {x : Res α} {f : α → Res β} (hx : x.Tame)
    (hf : ∀ a, (f a).Tame) : (x.bind f).Tame := by
  rcases hx with ⟨a, rfl⟩ | rfl
  · simpa using hf a
  · exact Or.inr rfl

/-- Mapping a tame outcome is tame. -/
theorem tame_map {α β : Type} (g : α → β) {x : Res α} (hx : x.Tame) :
    (x.map g).Tame := by
  rcases hx with ⟨a, rfl⟩ | rfl
  · exact Or.inl ⟨g a, rfl⟩
  · exact Or.inr rfl

/-- Binding a benign outcome into benign continuations is benign. -/
theorem benign_bind {α β : Type} {x : Res α} {f : α → Res β} (hx : x.Benign)
    (hf : ∀ a, (f a).Benign) : (x.bind f).Benign := by
  rcases hx with ⟨a, rfl⟩ | rfl | rfl | rfl
  · simpa using hf a
  · exact Or.inr (Or.inl rfl)
  · exact Or.inr (Or.inr (Or.inl rfl))
  · exact Or.inr (Or.inr (Or.inr rfl))

/-- `read_u8` yields a value or the generic error. -/
theorem tame_read_u8 (m : List Nat) (o : Nat) : (read_u8 m o).Tame := by
  unfold read_u8
  split_ifs
  · exact Or.inr rfl
  · exact Or.inr rfl
  · exact Or.inl ⟨_, rfl⟩

/-- `read_u32` yields a value or the generic error. -/
theorem tame_read_u32 (m : List Nat) (o : Nat) : (read_u32 m o).Tame := by
  unfold read_u32
  split_ifs
  · exact Or.inr rfl
  · exact Or.inr rfl
  · exact Or.inl ⟨_, rfl⟩

/-- `read_f32` yields a value or the generic error. -/
theorem tame_read_f32 (m : List Nat) (o : Nat) : (read_f32 m o).Tame := by
  unfold read_f32
  split_ifs
  · exact Or.inr rfl
  · exact Or.inr rfl
  · exact Or.inl ⟨_, rfl⟩

/-- `read_ipv6` yields a value or the generic error. -/
theorem tame_read_ipv6 (m : List Nat) (o : Nat) : (read_ipv6 m o).Tame := by
  unfold read_ipv6
  split_ifs
  · exact Or.inr rfl
  · exact Or.inr rfl
  · exact Or.inl ⟨_, rfl⟩

/-- `read_str` yields a value or the generic error. -/
theorem tame_read_str (m : List Nat) (o : Nat) : (read_str m o).Tame := by
  unfold read_str
  refine tame_bind (tame_read_u8 m (o + 1)) fun len => ?_
  split_ifs
  · exact Or.inr rfl
  · exact Or.inl ⟨_, rfl⟩

/-- Table access within bounds yields a value. -/
theorem tame_posGet {tbl : List Nat} {i : Nat} (h : i < tbl.length) :
    (posGet tbl i).Tame := by
  unfold posGet
  cases hg : tbl.get? i with
  | some v => exact Or.inl ⟨v, rfl⟩
  | none => exact absurd (List.get?_eq_none.mp hg) (by omega)

/-- A location string column stays tame when `db_type` is in bounds. -/
theorem tame_posStr (db : LocationDB) (tbl : List Nat) (row : Nat)
    (h : db.db_type < tbl.length) : (db.posStr tbl row).Tame := by
  unfold LocationDB.posStr
  refine tame_bind (tame_posGet h) fun p => ?_
  split_ifs
  · exact tame_bind (tame_read_u32 _ _) fun idx => tame_map _ (tame_read_str _ _)
  · exact tame_ok _

/-- A location float column stays tame when `db_type` is in bounds. -/
theorem tame_posF32 (db : LocationDB) (tbl : List Nat) (row : Nat)
    (h : db.db_type < tbl.length) : (db.posF32 tbl row).Tame := by
  unfold LocationDB.posF32
  refine tame_bind (tame_posGet h) fun p => ?_
  split_ifs
  · exact tame_map _ (tame_read_f32 _ _)
  · exact tame_ok _

/-- The location country column stays tame when `db_type` is in bounds. -/
theorem tame_posCountry (db : LocationDB) (row : Nat)
    (h : db.db_type < COUNTRY_POSITION.length) : (db.posCountry row).Tame := by
  unfold LocationDB.posCountry
  refine tame_bind (tame_posGet h) fun p => ?_
  split_ifs
  · refine tame_bind (tame_read_u32 _ _) fun idx => ?_
    exact tame_bind (tame_read_str _ _) fun s => tame_map _ (tame_read_str _ _)
  · exact tame_ok _

/-- Location row materialisation is tame for `db_type < 26`. -/
theorem tame_loc_read_record (db : LocationDB) (row : Nat)
    (h : db.db_type < 26) : (db.read_record row).Tame := by
  unfold LocationDB.read_record
  refine tame_bind (tame_posCountry db row (lt_of_lt_of_le h (by decide))) fun _ => ?_
  refine tame_bind (tame_posStr db REGION_POSITION row (lt_of_lt_of_le h (by decide))) fun _ => ?_
  refine tame_bind (tame_posF32 db LATITUDE_POSITION row (lt_of_lt_of_le h (by decide))) fun _ => ?_
  refine tame_bind (tame_posF32 db LONGITUDE_POSITION row (lt_of_lt_of_le h (by decide))) fun _ => ?_
  refine tame_bind (tame_posStr db CITY_POSITION row (lt_of_lt_of_le h (by decide))) fun _ => ?_
  refine tame_bind (tame_posStr db ISP_POSITION row (lt_of_lt_of_le h (by decide))) fun _ => ?_
  refine tame_bind (tame_posStr db DOMAIN_POSITION row (lt_of_lt_of_le h (by decide))) fun _ => ?_
  refine tame_bind (tame_posStr db ZIPCODE_POSITION row (lt_of_lt_of_le h (by decide))) fun _ => ?_
  refine tame_bind (tame_posStr db TIMEZONE_POSITION row (lt_of_lt_of_le h (by decide))) fun _ => ?_
  refine tame_bind (tame_posStr db NETSPEED_POSITION row (lt_of_lt_of_le h (by decide))) fun _ => ?_
  refine tame_bind (tame_posStr db IDDCODE_POSITION row (lt_of_lt_of_le h (by decide))) fun _ => ?_
  refine tame_bind (tame_posStr db AREACODE_POSITION row (lt_of_lt_of_le h (by decide))) fun _ => ?_
  refine tame_bind (tame_posStr db WEATHERSTATIONCODE_POSITION row (lt_of_lt_of_le h (by decide))) fun _ => ?_
  refine tame_bind (tame_posStr db WEATHERSTATIONNAME_POSITION row (lt_of_lt_of_le h (by decide))) fun _ => ?_
  refine tame_bind (tame_posStr db MCC_POSITION row (lt_of_lt_of_le h (by decide))) fun _ => ?_
  refine tame_bind (tame_posStr db MNC_POSITION row (lt_of_lt_of_le h (by decide))) fun _ => ?_
  refine tame_bind (tame_posStr db MOBILEBRAND_POSITION row (lt_of_lt_of_le h (by decide))) fun _ => ?_
  refine tame_bind (tame_posStr db ELEVATION_POSITION row (lt_of_lt_of_le h (by decide))) fun _ => ?_
  refine tame_bind (tame_posStr db USAGETYPE_POSITION row (lt_of_lt_of_le h (by decide))) fun _ => ?_
  refine tame_bind (tame_posStr db ADDRESSTYPE_POSITION row (lt_of_lt_of_le h (by decide))) fun _ => ?_
  refine tame_bind (tame_posStr db CATEGORY_POSITION row (lt_of_lt_of_le h (by decide))) fun _ => ?_
  refine tame_bind (tame_posStr db DISTRICT_POSITION row (lt_of_lt_of_le h (by decide))) fun _ => ?_
  refine tame_bind (tame_posStr db ASN_POSITION row (lt_of_lt_of_le h (by decide))) fun _ => ?_
  refine tame_bind (tame_posStr db AS_POSITION row (lt_of_lt_of_le h (by decide))) fun _ => ?_
  exact tame_ok _

/-- A proxy column block stays tame when `db_type` is in bounds. -/
theorem tame_fldStep (db : ProxyDB) (tbl : List Nat) (offset : Nat)
    (cur : Option (List Nat)) (h : db.db_type < tbl.length) :
    (db.fldStep tbl offset cur).Tame := by
  unfold ProxyDB.fldStep
  refine tame_bind (tame_posGet h) fun p => ?_
  split_ifs
  · exact tame_bind (tame_read_u32 _ _) fun idx => tame_map _ (tame_read_str _ _)
  · exact tame_ok _
  · exact tame_ok _

/-- Proxy row materialisation is tame for `db_type < 12`. -/
theorem tame_prox_read_record (db : ProxyDB) (offset : Nat)
    (h : db.db_type < 12) : (db.read_record offset).Tame := by
  unfold ProxyDB.read_record
  refine tame_bind (tame_posGet (lt_of_lt_of_le h (by decide) :
    db.db_type < PROXY_COUNTRY_POSITION.length)) fun cpos => ?_
  refine tame_bind ?_ fun rA => ?_
  · by_cases hc : cpos ≠ 0
    · rw [if_pos hc]
      refine tame_bind (tame_read_u32 _ _) fun index => ?_
      refine tame_bind (tame_read_str _ _) fun cs => ?_
      refine tame_bind (tame_read_str _ _) fun cl => ?_
      by_cases h45 : cs = [45]
      · rw [if_pos h45]
        exact tame_ok _
      · rw [if_neg h45]
        refine tame_bind ?_ fun r1 => tame_ok _
        split_ifs
        · exact tame_bind (tame_read_u32 _ _) fun i2 =>
            tame_map _ (tame_read_str _ _)
        · exact tame_ok _
    · rw [if_neg hc]
      exact tame_ok _
  · refine tame_bind (tame_fldStep db PROXY_REGION_POSITION offset rA.region (lt_of_lt_of_le h (by decide))) fun _ => ?_
    refine tame_bind (tame_fldStep db PROXY_CITY_POSITION offset rA.city (lt_of_lt_of_le h (by decide))) fun _ => ?_
    refine tame_bind (tame_fldStep db PROXY_ISP_POSITION offset rA.isp (lt_of_lt_of_le h (by decide))) fun _ => ?_
    refine tame_bind (tame_fldStep db PROXY_TYPE_POSITION offset rA.proxy_type (lt_of_lt_of_le h (by decide))) fun _ => ?_
    refine tame_bind (tame_fldStep db PROXY_DOMAIN_POSITION offset rA.domain (lt_of_lt_of_le h (by decide))) fun _ => ?_
    refine tame_bind (tame_fldStep db USAGE_TYPE_POSITION offset rA.usage_type (lt_of_lt_of_le h (by decide))) fun _ => ?_
    refine tame_bind (tame_fldStep db PROXY_ASN_POSITION offset rA.asn (lt_of_lt_of_le h (by decide))) fun _ => ?_
    refine tame_bind (tame_fldStep db PROXY_AS_POSITION offset rA.as_ (lt_of_lt_of_le h (by decide))) fun _ => ?_
    refine tame_bind (tame_fldStep db LAST_SEEN_POSITION offset rA.last_seen (lt_of_lt_of_le h (by decide))) fun _ => ?_
    refine tame_bind (tame_fldStep db THREAT_POSITION offset rA.threat (lt_of_lt_of_le h (by decide))) fun _ => ?_
    refine tame_bind (tame_fldStep db PROVIDER_POSITION offset rA.provider (lt_of_lt_of_le h (by decide))) fun _ => ?_
    exact tame_ok _

/-- The location IPv4 search loop only produces benign outcomes. -/
theorem benign_v4loop (db : LocationDB) (ip : Nat) :
    ∀ (fuel low high : Nat), (db.v4loop ip fuel low high).Benign := by
  intro fuel
  induction fuel with
  | zero =>
    intro low high
    exact Or.inr (Or.inr (Or.inr rfl))
  | succ n ih =>
    intro low high
    simp only [LocationDB.v4loop]
    by_cases hlh : low ≤ high
    · rw [if_pos hlh]
      refine benign_bind (tame_read_u32 _ _).benign fun ipFrom => ?_
      refine benign_bind (tame_read_u32 _ _).benign fun ipTo => ?_
      split_ifs <;> first | exact Or.inl ⟨_, rfl⟩ | exact ih _ _
    · rw [if_neg hlh]
      exact Or.inr (Or.inl rfl)

/-- The proxy IPv4 search loop only produces benign outcomes. -/
theorem benign_pv4loop (db : ProxyDB) (ip : Nat) :
    ∀ (fuel low high : Nat), (db.pv4loop ip fuel low high).Benign := by
  intro fuel
  induction fuel with
  | zero =>
    intro low high
    exact Or.inr (Or.inr (Or.inr rfl))
  | succ n ih =>
    intro low high
    simp only [ProxyDB.pv4loop]
    by_cases hlh : low ≤ high
    · rw [if_pos hlh]
      refine benign_bind (tame_read_u32 _ _).benign fun ipFrom => ?_
      refine benign_bind (tame_read_u32 _ _).benign fun ipTo => ?_
      split_ifs <;> first | exact Or.inl ⟨_, rfl⟩ | exact ih _ _
    · rw [if_neg hlh]
      exact Or.inr (Or.inl rfl)

/-- C6 (amended): for any handle whose `db_type` is inside the position
tables, an IPv4 lookup of any value — 0 and `0xFFFFFFFF` included —
produces a record, `RecordNotFound`, or the generic out-of-range error
(and, fuel aside, nothing else: no panic, no other error kind).  The
`high = mid - 1` step wraps modulo `2^32` at `mid = 0` instead of staying
non-negative, and the wrapped probe then surfaces as the generic error,
as `c6_counterexample` shows on a concrete opened handle. -/
theorem c6_boundary_lookup_outcomes :
    (∀ (db : LocationDB) (fuel v : Nat), db.db_type < 26 →
       (db.ipv4_lookup fuel v).Benign) ∧
    (∀ (db : ProxyDB) (fuel v : Nat), db.db_type < 12 →
       (db.get_ipv4_record fuel v).Benign) := by
  constructor
  · intro db fuel v h
    unfold LocationDB.ipv4_lookup
    refine benign_bind ?_ fun lh =>
      benign_bind (benign_v4loop db _ fuel lh.1 lh.2) fun row =>
        (tame_loc_read_record db row h).benign
    by_cases hb : 0 < db.ipv4_index_base_addr
    · rw [if_pos hb]
      exact (tame_bind (tame_read_u32 _ _) fun low =>
        tame_map _ (tame_read_u32 _ _)).benign
    · rw [if_neg hb]
      exact (tame_ok _).benign
  · intro db fuel v h
    unfold ProxyDB.get_ipv4_record
    refine benign_bind ?_ fun lh =>
      benign_bind (benign_pv4loop db _ fuel lh.1 lh.2) fun row =>
        (tame_prox_read_record db row h).benign
    by_cases hb : 0 < db.ipv4_index_base_addr
    · rw [if_pos hb]
      exact (tame_bind (tame_read_u32 _ _) fun low =>
        tame_map _ (tame_read_u32 _ _)).benign
    · rw [if_neg hb]
      exact (tame_ok _).benign

/-- C6 counterexample: on the opened handle `locDbC` (single row starting
at 5), looking up 0 drives `high = mid - 1` through the `u32` wrap at
`mid = 0` and the search then fails with the generic out-of-range error —
not a record and not `RecordNotFound`. -/
theorem c6_counterexample :
    DB_from_blob locBinC = .ok (.LocationDb locDbC) ∧
    locDbC.ipv4_lookup 10 0 = .err .GenericError ∧
    (Res.err Error.GenericError : Res LocationRecord) ≠ .err .RecordNotFound ∧
    (Res.err Error.GenericError : Res LocationRecord) ≠ .ok locRecA :=
  ⟨by decide, by decide, by decide, by decide⟩

/-- C6 witness: the amended outcome theorem at the boundary values on
concrete opened handles. -/
theorem c6_witness :
    locDbA.db_type < 26 ∧ (locDbA.ipv4_lookup 10 0).Benign ∧
    proxDbF.db_type < 12 ∧ (proxDbF.get_ipv4_record 10 4294967295).Benign :=
  ⟨by decide, c6_boundary_lookup_outcomes.1 locDbA 10 0 (by decide),
   by decide, c6_boundary_lookup_outcomes.2 proxDbF 10 4294967295 (by decide)⟩

/-- A successful bind comes from a successful first stage. -/
theorem bind_eq_ok {α β : Type} {x : Res α} {f : α → Res β} {b : β}
    (h : x.bind f = .ok b) : ∃ a, x = .ok a ∧ f a = .ok b := by
  cases x with
  | ok a => exact ⟨a, rfl, by simpa using h⟩
  | err e => simp at h
  | panic => simp at h
  | diverge => simp at h

/-- A location IPv4 search that succeeds found a row `mid` whose stored
begin covers the target and whose successor row's begin bounds it
strictly, and returned exactly that row's offset. -/
theorem v4loop_hit_spec (db : LocationDB) (ip : Nat) :
    ∀ (fuel low high row : Nat), db.v4loop ip fuel low high = .ok row →
    ∃ mid ipFrom ipTo,
      row = db.v4off mid ∧
      read_u32 db.source (db.v4off mid) = .ok ipFrom ∧
      read_u32 db.source (db.v4off (mid + 1)) = .ok ipTo ∧
      ipFrom ≤ ip ∧ ip < ipTo := by
  intro fuel
  induction fuel with
  | zero =>
    intro low high row h
    exact absurd h (by simp [LocationDB.v4loop])
  | succ n ih =>
    intro low high row h
    simp only [LocationDB.v4loop] at h
    by_cases hlh : low ≤ high
    · rw [if_pos hlh] at h
      cases hF : read_u32 db.source (db.v4off (u32 (low + high) / 2)) with
      | ok ipFrom =>
        rw [hF] at h
        simp only [Res.ok_bind] at h
        cases hT : read_u32 db.source (db.v4off (u32 (low + high) / 2 + 1)) with
        | ok ipTo =>
          rw [hT] at h
          simp only [Res.ok_bind] at h
          by_cases hHit : ipFrom ≤ ip ∧ ip < ipTo
          · rw [if_pos hHit] at h
            injection h with h'
            exact ⟨u32 (low + high) / 2, ipFrom, ipTo, h'.symm, hF, hT,
              hHit.1, hHit.2⟩
          · rw [if_neg hHit] at h
            split_ifs at h <;> exact ih _ _ _ h
        | err e => rw [hT] at h; simp at h
        | panic => rw [hT] at h; simp at h
        | diverge => rw [hT] at h; simp at h
      | err e => rw [hF] at h; simp at h
      | panic => rw [hF] at h; simp at h
      | diverge => rw [hF] at h; simp at h
    · rw [if_neg hlh] at h
      simp at h

/-- The proxy analogue of `v4loop_hit_spec`: the returned offset is the
hit row's offset plus 4 (skipping the range-begin column). -/
theorem pv4loop_hit_spec (db : ProxyDB) (ip : Nat) :
    ∀ (fuel low high row : Nat), db.pv4loop ip fuel low high = .ok row →
    ∃ mid ipFrom ipTo,
      row = u32 (db.pv4off mid + 4) ∧
      read_u32 db.source (db.pv4off mid) = .ok ipFrom ∧
      read_u32 db.source (db.pv4off mid + db.colOff4) = .ok ipTo ∧
      ipFrom ≤ ip ∧ ip < ipTo := by
  intro fuel
  induction fuel with
  | zero =>
    intro low high row h
    exact absurd h (by simp [ProxyDB.pv4loop])
  | succ n ih =>
    intro low high row h
    simp only [ProxyDB.pv4loop] at h
    by_cases hlh : low ≤ high
    · rw [if_pos hlh] at h
      cases hF : read_u32 db.source (db.pv4off (u32 (low + high) / 2)) with
      | ok ipFrom =>
        rw [hF] at h
        simp only [Res.ok_bind] at h
        cases hT : read_u32 db.source
            (db.pv4off (u32 (low + high) / 2) + db.colOff4) with
        | ok ipTo =>
          rw [hT] at h
          simp only [Res.ok_bind] at h
          by_cases hHit : ipFrom ≤ ip ∧ ip < ipTo
          · rw [if_pos hHit] at h
            injection h with h'
            exact ⟨u32 (low + high) / 2, ipFrom, ipTo, h'.symm, hF, hT,
              hHit.1, hHit.2⟩
          · rw [if_neg hHit] at h
            split_ifs at h <;> exact ih _ _ _ h
        | err e => rw [hT] at h; simp at h
        | panic => rw [hT] at h; simp at h
        | diverge => rw [hT] at h; simp at h
      | err e => rw [hF] at h; simp at h
      | panic => rw [hF] at h; simp at h
      | diverge => rw [hF] at h; simp at h
    · rw [if_neg hlh] at h
      simp at h

/-- C2 (amended): when an IPv4 lookup of either family succeeds, some row
`mid` satisfies `ip_from ≤ u < ip_to` for the value `u` actually searched
(`u = v`, except `u = v - 1` when `v = 0xFFFFFFFF`), `ip_from ≤ v` holds
as stated, and the record is materialised from exactly that row (the
proxy engine skips the 4-byte range-begin column first). -/
theorem c2_lookup_hit_row :
    (∀ (db : LocationDB) (fuel v : Nat) (r : LocationRecord),
       db.ipv4_lookup fuel v = .ok r →
       ∃ mid ipFrom ipTo,
         read_u32 db.source (db.v4off mid) = .ok ipFrom ∧
         read_u32 db.source (db.v4off (mid + 1)) = .ok ipTo ∧
         ipFrom ≤ v ∧
         ipFrom ≤ (if v = 4294967295 then 4294967294 else v) ∧
         (if v = 4294967295 then 4294967294 else v) < ipTo ∧
         db.read_record (db.v4off mid) = .ok r) ∧
    (∀ (db : ProxyDB) (fuel v : Nat) (r : ProxyRecord),
       db.get_ipv4_record fuel v = .ok r →
       ∃ mid ipFrom ipTo,
         read_u32 db.source (db.pv4off mid) = .ok ipFrom ∧
         read_u32 db.source (db.pv4off mid + db.colOff4) = .ok ipTo ∧
         ipFrom ≤ v ∧
         ipFrom ≤ (if v = MAX_IPV4_RANGE then v - 1 else v) ∧
         (if v = MAX_IPV4_RANGE then v - 1 else v) < ipTo ∧
         db.read_record (u32 (db.pv4off mid + 4)) = .ok r) := by
  constructor
  · intro db fuel v r h
    simp only [LocationDB.ipv4_lookup] at h
    obtain ⟨lh, hI, hF⟩ := bind_eq_ok h
    obtain ⟨row, hL, hR⟩ := bind_eq_ok hF
    obtain ⟨mid, ipFrom, ipTo, rfl, hrF, hrT, hle, hlt⟩ :=
      v4loop_hit_spec db _ fuel lh.1 lh.2 _ hL
    refine ⟨mid, ipFrom, ipTo, hrF, hrT, ?_, hle, hlt, hR⟩
    split_ifs at hle <;> omega
  · intro db fuel v r h
    simp only [ProxyDB.get_ipv4_record] at h
    obtain ⟨lh, hI, hF⟩ := bind_eq_ok h
    obtain ⟨row, hL, hR⟩ := bind_eq_ok hF
    obtain ⟨mid, ipFrom, ipTo, rfl, hrF, hrT, hle, hlt⟩ :=
      pv4loop_hit_spec db _ fuel lh.1 lh.2 _ hL
    refine ⟨mid, ipFrom, ipTo, hrF, hrT, ?_, hle, hlt, hR⟩
    split_ifs at hle <;> omega

/-- C2 counterexample: on the opened handle `locDbA` (window `[0, 1]`, no
index), looking up `v = 0xFFFFFFFF` succeeds, yet no row of the window
has `v` strictly below the next row's range-begin: row 0's successor
begin is `0xFFFFFFFF` itself and row 1's successor begin is `55792898`,
both refuting `v < ip_to` — the hit actually used the decremented value
`0xFFFFFFFE`. -/
theorem c2_counterexample :
    locDbA.ipv4_index_base_addr = 0 ∧
    locDbA.ipv4_db_count = 1 ∧
    locDbA.ipv4_lookup 10 4294967295 = .ok locRecA ∧
    read_u32 locDbA.source (locDbA.v4off 1) = .ok 4294967295 ∧
    ¬ (4294967295 < 4294967295) ∧
    read_u32 locDbA.source (locDbA.v4off 2) = .ok 55792898 ∧
    55792898 < 4294967295 :=
  ⟨rfl, rfl, by decide, by decide, by decide, by decide, by decide⟩

/-- C2 witness: the amended hit characterisation at a concrete lookup. -/
theorem c2_witness :
    locDbA.ipv4_lookup 10 5 = .ok locRecA ∧
    (∃ mid ipFrom ipTo,
      read_u32 locDbA.source (locDbA.v4off mid) = .ok ipFrom ∧
      read_u32 locDbA.source (locDbA.v4off (mid + 1)) = .ok ipTo ∧
      ipFrom ≤ 5 ∧
      ipFrom ≤ (if 5 = 4294967295 then 4294967294 else 5) ∧
      (if (5 : Nat) = 4294967295 then 4294967294 else 5) < ipTo ∧
      locDbA.read_record (locDbA.v4off mid) = .ok locRecA) :=
  ⟨by decide, c2_lookup_hit_row.1 locDbA 10 5 locRecA (by decide)⟩

/-- Rust `to_ipv4` succeeds exactly on the IPv4-compatible and
IPv4-mapped patterns, returning the trailing 32 bits. -/
theorem toIpv4_some {w : Nat} (h : w < 4294967296 ∨ w / 4294967296 = 65535) :
    toIpv4 w = some (w % 4294967296) := by
  unfold toIpv4
  rw [if_pos (by omega)]

/-- Rust `to_ipv4` fails off the IPv4-compatible and IPv4-mapped
patterns. -/
theorem toIpv4_none {w : Nat} (h : ¬ (w < 4294967296 ∨ w / 4294967296 = 65535)) :
    toIpv4 w = none := by
  unfold toIpv4
  rw [if_neg (by omega)]

/-- C4 (amended): which table an IPv6 lookup searches, for both families.
The IPv4 table is searched not only for IPv4-mapped (`::ffff:0:0/96`),
6to4 (`2002::/16`, bits 80..111) and Teredo (`2001:0000::/32`, low 32
bits of the complement) addresses, but also for every IPv4-compatible
address `::a.b.c.d` (`w < 2^32`, taking the trailing 32 bits — `::1`
included); only the remaining addresses reach the IPv6 range table. -/
theorem c4_canonicalisation (w : Nat) (hw : w < 2 ^ 128) :
    (∀ (db : LocationDB) (fuel : Nat),
      ((w < 4294967296 ∨ w / 4294967296 = 65535) →
         db.ip_lookup fuel (.V6 w) =
           (db.ipv4_lookup fuel (w % 4294967296)).map fun r =>
             { r with ip := .V6 w }) ∧
      (¬ (w < 4294967296 ∨ w / 4294967296 = 65535) → w / 2 ^ 112 = 8194 →
         db.ip_lookup fuel (.V6 w) =
           (db.ipv4_lookup fuel (w / 2 ^ 80 % 4294967296)).map fun r =>
             { r with ip := .V6 w }) ∧
      (w / 2 ^ 96 = 536936448 →
         db.ip_lookup fuel (.V6 w) =
           (db.ipv4_lookup fuel ((2 ^ 128 - 1 - w) % 4294967296)).map fun r =>
             { r with ip := .V6 w }) ∧
      (¬ (w < 4294967296 ∨ w / 4294967296 = 65535) → w / 2 ^ 112 ≠ 8194 →
         w / 2 ^ 96 ≠ 536936448 →
         db.ip_lookup fuel (.V6 w) =
           (db.ipv6_lookup fuel w).map fun r => { r with ip := .V6 w })) ∧
    (∀ (db : ProxyDB) (fuel : Nat),
      ((w < 4294967296 ∨ w / 4294967296 = 65535) →
         db.ip_lookup fuel (.V6 w) =
           (db.get_ipv4_record fuel (w % 4294967296)).map fun r =>
             { r with ip := .V6 w }) ∧
      (¬ (w < 4294967296 ∨ w / 4294967296 = 65535) → w / 2 ^ 112 = 8194 →
         db.ip_lookup fuel (.V6 w) =
           (db.get_ipv4_record fuel (w / 2 ^ 80 % 4294967296)).map fun r =>
             { r with ip := .V6 w }) ∧
      (w / 2 ^ 96 = 536936448 →
         db.ip_lookup fuel (.V6 w) =
           (db.get_ipv4_record fuel ((2 ^ 128 - 1 - w) % 4294967296)).map fun r =>
             { r with ip := .V6 w }) ∧
      (¬ (w < 4294967296 ∨ w / 4294967296 = 65535) → w / 2 ^ 112 ≠ 8194 →
         w / 2 ^ 96 ≠ 536936448 →
         db.ip_lookup fuel (.V6 w) =
           (db.get_ipv6_record fuel w).map fun r => { r with ip := .V6 w })) := by
  constructor
  · intro db fuel
    refine ⟨?_, ?_, ?_, ?_⟩
    · intro h1
      simp only [LocationDB.ip_lookup, toIpv4_some h1]
    · intro h1 h2
      simp only [LocationDB.ip_lookup, toIpv4_none h1]
      rw [if_pos (show FROM_6TO4 ≤ w ∧ w ≤ TO_6TO4 by
        unfold FROM_6TO4 TO_6TO4; omega)]
    · intro h3
      simp only [LocationDB.ip_lookup,
        toIpv4_none (show ¬ (w < 4294967296 ∨ w / 4294967296 = 65535) by omega)]
      rw [if_neg (show ¬ (FROM_6TO4 ≤ w ∧ w ≤ TO_6TO4) by
        unfold FROM_6TO4 TO_6TO4; omega)]
      rw [if_pos (show FROM_TEREDO ≤ w ∧ w ≤ TO_TEREDO by
        unfold FROM_TEREDO TO_TEREDO; omega)]
    · intro h1 h2 h3
      simp only [LocationDB.ip_lookup, toIpv4_none h1]
      rw [if_neg (show ¬ (FROM_6TO4 ≤ w ∧ w ≤ TO_6TO4) by
        unfold FROM_6TO4 TO_6TO4; omega)]
      rw [if_neg (show ¬ (FROM_TEREDO ≤ w ∧ w ≤ TO_TEREDO) by
        unfold FROM_TEREDO TO_TEREDO; omega)]
  · intro db fuel
    refine ⟨?_, ?_, ?_, ?_⟩
    · intro h1
      simp only [ProxyDB.ip_lookup, toIpv4_some h1]
    · intro h1 h2
      simp only [ProxyDB.ip_lookup, toIpv4_none h1]
      rw [if_pos (show FROM_6TO4 ≤ w ∧ w ≤ TO_6TO4 by
        unfold FROM_6TO4 TO_6TO4; omega)]
    · intro h3
      simp only [ProxyDB.ip_lookup,
        toIpv4_none (show ¬ (w < 4294967296 ∨ w / 4294967296 = 65535) by omega)]
      rw [if_neg (show ¬ (FROM_6TO4 ≤ w ∧ w ≤ TO_6TO4) by
        unfold FROM_6TO4 TO_6TO4; omega)]
      rw [if_pos (show FROM_TEREDO ≤ w ∧ w ≤ TO_TEREDO by
        unfold FROM_TEREDO TO_TEREDO; omega)]
    · intro h1 h2 h3
      simp only [ProxyDB.ip_lookup, toIpv4_none h1]
      rw [if_neg (show ¬ (FROM_6TO4 ≤ w ∧ w ≤ TO_6TO4) by
        unfold FROM_6TO4 TO_6TO4; omega)]
      rw [if_neg (show ¬ (FROM_TEREDO ≤ w ∧ w ≤ TO_TEREDO) by
        unfold FROM_TEREDO TO_TEREDO; omega)]

/-- C4 counterexample: on the opened handle `locDbB`, looking up `::1`
(the IPv6 value 1, which is neither IPv4-mapped, nor 6to4, nor Teredo)
searches the IPv4 table and succeeds with the `"US"` row, while the IPv6
range table search for the same address — the one the claim mandates —
reports `RecordNotFound`. -/
theorem c4_counterexample :
    DB_from_blob locBinB = .ok (.LocationDb locDbB) ∧
    ¬ ((1 : Nat) / 4294967296 = 65535) ∧
    ¬ (FROM_6TO4 ≤ 1 ∧ (1 : Nat) ≤ TO_6TO4) ∧
    ¬ (FROM_TEREDO ≤ 1 ∧ (1 : Nat) ≤ TO_TEREDO) ∧
    locDbB.ip_lookup 10 (.V6 1) = .ok locRecB ∧
    locDbB.ipv6_lookup 10 1 = .err .RecordNotFound ∧
    (Res.ok locRecB : Res LocationRecord) ≠ .err .RecordNotFound :=
  ⟨by decide, by decide, by decide, by decide, by decide, by decide, by decide⟩

/-- C4 witness: the amended canonicalisation at the IPv4-mapped address
`::ffff:0.0.0.1` on a concrete handle. -/
theorem c4_witness :
    locDbB.ip_lookup 10 (.V6 281470681743361) =
      (locDbB.ipv4_lookup 10 (281470681743361 % 4294967296)).map fun r =>
        { r with ip := .V6 281470681743361 } :=
  ((c4_canonicalisation 281470681743361 (by norm_num)).1 locDbB 10).1
    (by norm_num)

/-- An in-bounds `read_u8` yields the byte. -/
theorem read_u8_eval (m : List Nat) (o : Nat) (h1 : o ≠ 0)
    (h2 : o ≤ m.length) : read_u8 m o = .ok (byteAt m (o - 1)) := by
  unfold read_u8
  rw [if_neg h1, if_neg (by omega)]

/-- An in-bounds `read_u32` yields the little-endian value. -/
theorem read_u32_eval (m : List Nat) (o : Nat) (h1 : o ≠ 0)
    (h2 : o + 3 ≤ m.length) : read_u32 m o = .ok (leBytes m (o - 1) 4) := by
  unfold read_u32
  rw [if_neg h1, if_neg (by omega)]

/-- On a blob long enough for every header read (35 bytes or more), the
location validator reduces to its acceptance rule. -/
theorem loc_read_header_eval (m : List Nat) (h : 35 ≤ m.length) :
    LocationDB.read_header m =
      if (byteAt m 2 ≤ 20 ∧ byteAt m 29 = 0) ∨ byteAt m 29 = 1 then
        .ok (locHeaderOf m)
      else .err (.InvalidBinDatabase (byteAt m 2) (byteAt m 29)) := by
  unfold LocationDB.read_header
  rw [read_u8_eval m 1 (by omega) (by omega),
      read_u8_eval m 2 (by omega) (by omega),
      read_u8_eval m 3 (by omega) (by omega),
      read_u8_eval m 4 (by omega) (by omega),
      read_u8_eval m 5 (by omega) (by omega),
      read_u32_eval m 6 (by omega) (by omega),
      read_u32_eval m 10 (by omega) (by omega),
      read_u32_eval m 14 (by omega) (by omega),
      read_u32_eval m 18 (by omega) (by omega),
      read_u32_eval m 22 (by omega) (by omega),
      read_u32_eval m 26 (by omega) (by omega),
      read_u8_eval m 30 (by omega) (by omega),
      read_u8_eval m 31 (by omega) (by omega),
      read_u32_eval m 32 (by omega) (by omega)]
  simp only [Res.ok_bind]
  rfl

/-- On a blob long enough for every header read, the proxy validator
reduces to its acceptance rule. -/
theorem prox_read_header_eval (m : List Nat) (h : 35 ≤ m.length) :
    ProxyDB.read_header m =
      if byteAt m 29 = 2 ∨ (byteAt m 2 ≤ 20 ∧ byteAt m 29 = 0) then
        .ok (proxHeaderOf m)
      else .err (.InvalidBinDatabase (byteAt m 2) (byteAt m 29)) := by
  unfold ProxyDB.read_header
  rw [read_u8_eval m 1 (by omega) (by omega),
      read_u8_eval m 2 (by omega) (by omega),
      read_u8_eval m 3 (by omega) (by omega),
      read_u8_eval m 4 (by omega) (by omega),
      read_u8_eval m 5 (by omega) (by omega),
      read_u32_eval m 6 (by omega) (by omega),
      read_u32_eval m 10 (by omega) (by omega),
      read_u32_eval m 14 (by omega) (by omega),
      read_u32_eval m 18 (by omega) (by omega),
      read_u32_eval m 22 (by omega) (by omega),
      read_u32_eval m 26 (by omega) (by omega),
      read_u8_eval m 30 (by omega) (by omega),
      read_u8_eval m 31 (by omega) (by omega),
      read_u32_eval m 32 (by omega) (by omega)]
  simp only [Res.ok_bind]
  rfl

/-- C8: product classification on open.  Each family accepts exactly when
`product_code` is its own code or `product_code = 0 ∧ db_year ≤ 20`, and
rejects with `InvalidBinDatabase(db_year, product_code)` otherwise;
`product_code = 1` opens as location, `2` as proxy, `0` tries location
first and falls back to proxy (so a legacy year > 20 yields
`InvalidBinDatabase(db_year, 0)`), and any other code yields
`UnknownDb`. -/
theorem c8_open_classification (m : List Nat) (h : 35 ≤ m.length) :
    (((byteAt m 2 ≤ 20 ∧ byteAt m 29 = 0) ∨ byteAt m 29 = 1) →
       LocationDB.read_header m = .ok (locHeaderOf m)) ∧
    (¬ ((byteAt m 2 ≤ 20 ∧ byteAt m 29 = 0) ∨ byteAt m 29 = 1) →
       LocationDB.read_header m =
         .err (.InvalidBinDatabase (byteAt m 2) (byteAt m 29))) ∧
    ((byteAt m 29 = 2 ∨ (byteAt m 2 ≤ 20 ∧ byteAt m 29 = 0)) →
       ProxyDB.read_header m = .ok (proxHeaderOf m)) ∧
    (¬ (byteAt m 29 = 2 ∨ (byteAt m 2 ≤ 20 ∧ byteAt m 29 = 0)) →
       ProxyDB.read_header m =
         .err (.InvalidBinDatabase (byteAt m 2) (byteAt m 29))) ∧
    (byteAt m 29 = 1 → DB_from_blob m = .ok (.LocationDb (locHeaderOf m))) ∧
    (byteAt m 29 = 2 → DB_from_blob m = .ok (.ProxyDb (proxHeaderOf m))) ∧
    (byteAt m 29 = 0 → byteAt m 2 ≤ 20 →
       DB_from_blob m = .ok (.LocationDb (locHeaderOf m))) ∧
    (byteAt m 29 = 0 → 20 < byteAt m 2 →
       DB_from_blob m = .err (.InvalidBinDatabase (byteAt m 2) 0)) ∧
    (byteAt m 29 ≠ 0 → byteAt m 29 ≠ 1 → byteAt m 29 ≠ 2 →
       DB_from_blob m = .err .UnknownDb) := by
  have hL := loc_read_header_eval m h
  have hP := prox_read_header_eval m h
  have hlen : ¬ m.length < 32 := by omega
  refine ⟨?_, ?_, ?_, ?_, ?_, ?_, ?_, ?_, ?_⟩
  · intro hacc
    rw [hL, if_pos hacc]
  · intro hrej
    rw [hL, if_neg hrej]
  · intro hacc
    rw [hP, if_pos hacc]
  · intro hrej
    rw [hP, if_neg hrej]
  · intro hpc
    simp [DB_from_blob, hlen, hpc, hL]
  · intro hpc
    simp [DB_from_blob, hlen, hpc, hP]
  · intro hpc hyr
    simp [DB_from_blob, hlen, hpc, hL, hyr]
  · intro hpc hyr
    simp [DB_from_blob, hlen, hpc, hL, hP, show ¬ byteAt m 2 ≤ 20 by omega]
  · intro h0 h1 h2
    simp [DB_from_blob, hlen, h0, h1, h2]

/-- C8 witness: the classification applied to the concrete blob
`locBinZ` (`product_code = 1`). -/
theorem c8_witness :
    35 ≤ locBinZ.length ∧
    byteAt locBinZ 29 = 1 ∧
    DB_from_blob locBinZ = .ok (.LocationDb (locHeaderOf locBinZ)) :=
  ⟨by decide, by decide,
   (c8_open_classification locBinZ (by decide)).2.2.2.2.1 (by decide)⟩

/-- A successful mapped location result carries the rewritten `ip`. -/
theorem ip_of_map_loc {a : IpAddr} {x : Res LocationRecord}
    {r : LocationRecord}
    (h : (x.map fun q => { q with ip := a }) = .ok r) : r.ip = a := by
  cases x with
  | ok q =>
    simp only [Res.map_ok] at h
    injection h with h'
    rw [← h']
  | err e => simp at h
  | panic => simp at h
  | diverge => simp at h

/-- A successful mapped proxy result carries the rewritten `ip`. -/
theorem ip_of_map_prox {a : IpAddr} {x : Res ProxyRecord} {r : ProxyRecord}
    (h : (x.map fun q => { q with ip := a }) = .ok r) : r.ip = a := by
  cases x with
  | ok q =>
    simp only [Res.map_ok] at h
    injection h with h'
    rw [← h']
  | err e => simp at h
  | panic => simp at h
  | diverge => simp at h

/-- C9: every successful lookup of either family returns a record whose
`ip` field is exactly the caller's original address, whichever search
path (IPv4, rewritten IPv6 embedding, or IPv6 range) produced it. -/
theorem c9_ip_field_preserved :
    (∀ (db : LocationDB) (fuel : Nat) (a : IpAddr) (r : LocationRecord),
       db.ip_lookup fuel a = .ok r → r.ip = a) ∧
    (∀ (db : ProxyDB) (fuel : Nat) (a : IpAddr) (r : ProxyRecord),
       db.ip_lookup fuel a = .ok r → r.ip = a) := by
  constructor
  · intro db fuel a r h
    cases a with
    | V4 v =>
      simp only [LocationDB.ip_lookup] at h
      exact ip_of_map_loc h
    | V6 w =>
      simp only [LocationDB.ip_lookup] at h
      cases hto : toIpv4 w with
      | some v =>
        rw [hto] at h
        exact ip_of_map_loc h
      | none =>
        rw [hto] at h
        split_ifs at h <;> exact ip_of_map_loc h
  · intro db fuel a r h
    cases a with
    | V4 v =>
      simp only [ProxyDB.ip_lookup] at h
      exact ip_of_map_prox h
    | V6 w =>
      simp only [ProxyDB.ip_lookup] at h
      cases hto : toIpv4 w with
      | some v =>
        rw [hto] at h
        exact ip_of_map_prox h
      | none =>
        rw [hto] at h
        split_ifs at h <;> exact ip_of_map_prox h

/-- C9 witness: concrete lookups of both families, checked to return the
caller's address. -/
theorem c9_witness :
    ({ locRecA with ip := IpAddr.V4 5 } : LocationRecord).ip = .V4 5 ∧
    ({ ProxyRecord.default with ip := IpAddr.V6 (2 ^ 127) } :
        ProxyRecord).ip = .V6 (2 ^ 127) :=
  ⟨c9_ip_field_preserved.1 locDbA 10 (.V4 5) _ (by decide),
   c9_ip_field_preserved.2 proxDbF 10 (.V6 (2 ^ 127)) _ (by decide)⟩
